import Mathlib

/-!
The userfaultfd stressor of stress-ng (`src/stress-userfaultfd.c`).

A shallow embedding of the demand-paging stressor.  System calls are modelled
by an environment record that fixes the outcome of each call, the servicer
loop consumes a script with one entry per loop iteration, and every function
returns the list of the calls it made (its trace) next to its result.
-/

namespace StressNG

/-! ## Constants of the system headers (Linux, 64 bit) -/

/-- Success exit code of `<stdlib.h>`. -/
def EXIT_SUCCESS : Int := 0

/-- Failure exit code of `<stdlib.h>`. -/
def EXIT_FAILURE : Int := 1

/-- Interrupted system call, `<errno.h>`. -/
def EINTR : Nat := 4

/-- Resource temporarily unavailable, `<errno.h>`. -/
def EAGAIN : Nat := 11

/-- Out of memory, `<errno.h>`. -/
def ENOMEM : Nat := 12

/-- Kill signal, `<signal.h>`. -/
def SIGKILL : Nat := 9

/-- Alarm signal, `<signal.h>`. -/
def SIGALRM : Nat := 14

/-- Termination signal, `<signal.h>`. -/
def SIGTERM : Nat := 15

/-- Readable-data event of `<poll.h>`. -/
def POLLIN : Nat := 1

/-- Protocol version of `<linux/userfaultfd.h>`. -/
def UFFD_API : Nat := 0xAA

/-- Bit number of the copy ioctl in the capability mask. -/
def _UFFDIO_COPY : Nat := 3

/-- Bit number of the zeropage ioctl in the capability mask. -/
def _UFFDIO_ZEROPAGE : Nat := 4

/-- Event kind of a page fault notification. -/
def UFFD_EVENT_PAGEFAULT : Nat := 0x12

/-- Flag of a write fault in a page fault notification. -/
def UFFD_PAGEFAULT_FLAG_WRITE : Nat := 1

/-- Registration mode: notify on missing pages. -/
def UFFDIO_REGISTER_MODE_MISSING : Nat := 1

/-- Advice of `<sys/mman.h>`: the pages are not needed. -/
def MADV_DONTNEED : Nat := 4

/-- Number of values of a `size_t` and of a `uint64_t`. -/
def SIZE_MOD : Nat := 2 ^ 64

/-- Termination signal of a wait status, `WTERMSIG` of glibc. -/
def WTERMSIG (status : Nat) : Nat := status &&& 0x7f

/-- Exit code of a wait status, `WEXITSTATUS` of glibc. -/
def WEXITSTATUS (status : Nat) : Nat := (status &&& 0xff00) >>> 8

/-- Normal exit test of a wait status, `WIFEXITED` of glibc. -/
def WIFEXITED (status : Nat) : Bool := WTERMSIG status == 0

/-- Conversion of a byte to `signed char`. -/
def signed_char (v : Nat) : Int :=
  if v % 256 < 128 then ((v % 256 : Nat) : Int) else ((v % 256 : Nat) : Int) - 256

/-- Killed-by-signal test of a wait status, `WIFSIGNALED` of glibc:
`((signed char) ((status & 0x7f) + 1) >> 1) > 0`. -/
def WIFSIGNALED (status : Nat) : Bool :=
  decide (0 < Int.shiftRight (signed_char ((status &&& 0x7f) + 1)) 1)

/-! ## Declarations of `stress-ng.h`, taken as parameters -/

/-- Constants and helpers declared in `stress-ng.h`; the stressor is verified
for every choice of them. -/
structure Harness where
  /-- Exit code for a lack of resources. -/
  EXIT_NO_RESOURCE : Int
  /-- Smallest region size. -/
  MIN_MMAP_BYTES : Nat
  /-- Largest region size. -/
  MAX_MMAP_BYTES : Nat
  /-- Flag bit of the maximize option. -/
  OPT_FLAGS_MAXIMIZE : Nat
  /-- Flag bit of the minimize option. -/
  OPT_FLAGS_MINIMIZE : Nat
  /-- Map of an errno to an exit code, `exit_status()`. -/
  exit_status : Nat → Int

/-! ## Traces -/

/-- Sites of the diagnostics printed by the stressor. -/
inductive Msg
  | madvise_failed
  | address_out_of_range
  | copy_ioctl_failed
  | zeropage_ioctl_failed
  | zero_page_allocation_failed
  | mmap_failed
  | userfaultfd_failed
  | ioctl_api_failed
  | api_check_failed
  | ioctl_register_failed
  | no_copy_support
  | no_zeropage_support
  | clone_failed
  | poll_userfaultfd
  | read_userfaultfd
  | msg_not_pagefault
  | msg_not_write_fault
  | waitpid_failed
  | ioctl_unregister_failed
  | fork_failed
  | child_died
  | assuming_oom_killer
  deriving DecidableEq, Repr

/-- Context handed to the cloned generator, `context_t`. -/
structure context_t where
  data : Nat
  max_ops : Nat
  page_size : Nat
  sz : Nat
  parent : Nat
  deriving DecidableEq, Repr

/-- Calls observable from outside the stressor, with the arguments passed and,
where the code tests it, whether the call succeeded (a `waitpid` whose result
the code ignores is recorded with `true`). `close` is listed so that traces can
be examined for it; no function of the file issues it. -/
inductive Action
  | posix_memalign (alignment size : Nat) (ok : Bool)
  | mmap (len : Nat) (ok : Bool)
  | userfaultfd (flags : Nat) (ret : Int)
  | set_nonblock (fd : Int) (ok : Bool)
  | ioctl_api (fd : Int) (api features : Nat) (ok : Bool)
  | ioctl_register (fd : Int) (start len mode : Nat) (ok : Bool)
  | getpid
  | clone (ctx : context_t) (ret : Int)
  | poll (fd : Int) (timeout : Nat)
  | read (fd : Int)
  | ioctl_copy (fd : Int) (dst src len mode : Nat) (ok : Bool)
  | ioctl_zeropage (fd : Int) (start len mode : Nat) (ok : Bool)
  | kill (pid : Int) (sig : Nat)
  | waitpid (pid : Int) (ok : Bool)
  | ioctl_unregister (fd : Int) (start len : Nat) (ok : Bool)
  | munmap (addr len : Nat)
  | free (ptr : Nat)
  | close (fd : Int)
  | fork (ret : Int)
  | setpgid (pid : Int)
  | stress_parent_died_alarm
  | log_system_mem_info
  | pr_err (m : Msg)
  | pr_fail_err (m : Msg)
  | pr_dbg (m : Msg)
  | madvise (addr len advice : Nat) (ok : Bool)
  | store (addr val : Nat)
  | sighandler (sig : Nat) (ok : Bool)
  deriving DecidableEq, Repr

/-! ## `handle_page_fault` -/

/-- The function `handle_page_fault()`: `rnd` is the value drawn from `mwc32()`
and `ioctl_ok` says whether the resolution ioctl returns a value `>= 0`. -/
def handle_page_fault (fd : Int) (addr zero_page data_start data_end page_size : Nat)
    (rnd : Nat) (ioctl_ok : Bool) : Int × List Action :=
  if addr < data_start ∨ addr ≥ data_end then
    (-1, [.pr_fail_err .address_out_of_range])
  else if rnd &&& 1 ≠ 0 then
    if !ioctl_ok then
      (-1, [.ioctl_copy fd addr zero_page page_size 0 false, .pr_fail_err .copy_ioctl_failed])
    else
      (0, [.ioctl_copy fd addr zero_page page_size 0 true])
  else
    if !ioctl_ok then
      (-1, [.ioctl_zeropage fd addr page_size 0 false, .pr_fail_err .zeropage_ioctl_failed])
    else
      (0, [.ioctl_zeropage fd addr page_size 0 true])

/-! ## The servicer loop -/

/-- Outcome of `poll()` on the fault device. -/
inductive PollResult
  | timeout
  | error (errno : Nat)
  | ready (revents : Nat)
  deriving DecidableEq, Repr

/-- Notification record `struct uffd_msg`, the fields the stressor reads. -/
structure uffd_msg where
  event : Nat
  flags : Nat
  address : Nat
  deriving DecidableEq, Repr

/-- Outcome of `read()` on the fault device. -/
inductive ReadResult
  | error (errno : Nat)
  | msg (m : uffd_msg)
  deriving DecidableEq, Repr

/-- What the environment supplies to one iteration of the servicer loop: the
value of the stop flag `opt_do_run` at each place the iteration may test it,
the outcomes of `poll` and `read`, the random value and the outcome of the
resolution ioctl. -/
structure IterInput where
  /-- Flag `opt_do_run` at the top of the body. -/
  run_top : Bool
  poll : PollResult
  /-- Flag `opt_do_run` after a reported poll failure. -/
  run_poll : Bool
  read : ReadResult
  /-- Flag `opt_do_run` after a reported read failure. -/
  run_read : Bool
  /-- Value of `mwc32()`. -/
  rnd : Nat
  /-- Whether the resolution ioctl succeeds. -/
  ioctl_ok : Bool
  /-- Flag `opt_do_run` in the loop condition. -/
  run_cond : Bool
  deriving DecidableEq, Repr

/-- Values the servicer loop reads but never changes. -/
structure Servicer where
  fd : Int
  do_poll : Bool
  zero_page : Nat
  data : Nat
  sz : Nat
  page_size : Nat
  max_ops : Nat
  deriving DecidableEq, Repr

/-- How an iteration of the loop body ends: by `break`, or by reaching the
loop condition (through `continue` or the end of the body). -/
inductive Flow
  | brk
  | next
  deriving DecidableEq, Repr

/-- Result of one iteration of the loop body. -/
structure Iter where
  flow : Flow
  counter : Nat
  trace : List Action
  deriving DecidableEq, Repr

/-- The loop body from the label `do_read` on. -/
def do_read (s : Servicer) (ev : IterInput) (counter : Nat) : Iter :=
  match ev.read with
  | .error errno =>
    if errno = EINTR then
      ⟨.next, counter, [.read s.fd]⟩
    else if !ev.run_read then
      ⟨.brk, counter, [.read s.fd, .pr_fail_err .read_userfaultfd]⟩
    else
      ⟨.next, counter, [.read s.fd, .pr_fail_err .read_userfaultfd]⟩
  | .msg m =>
    if m.event ≠ UFFD_EVENT_PAGEFAULT then
      ⟨.next, counter, [.read s.fd, .pr_fail_err .msg_not_pagefault]⟩
    else if m.flags &&& UFFD_PAGEFAULT_FLAG_WRITE = 0 then
      ⟨.next, counter, [.read s.fd, .pr_fail_err .msg_not_write_fault]⟩
    else
      let r := handle_page_fault s.fd m.address s.zero_page s.data (s.data + s.sz)
        s.page_size ev.rnd ev.ioctl_ok
      if r.1 < 0 then
        ⟨.brk, counter, .read s.fd :: r.2⟩
      else
        ⟨.next, (counter + 1) % SIZE_MOD, .read s.fd :: r.2⟩

/-- One pass through the body of the servicer loop. -/
def servicer_body (s : Servicer) (ev : IterInput) (counter : Nat) : Iter :=
  if !ev.run_top then
    ⟨.brk, counter, []⟩
  else if s.do_poll then
    match ev.poll with
    | .timeout => ⟨.next, counter, [.poll s.fd 1000]⟩
    | .error errno =>
      if errno = EINTR then
        ⟨.next, counter, [.poll s.fd 1000]⟩
      else if errno ≠ ENOMEM then
        if !ev.run_poll then
          ⟨.brk, counter, [.poll s.fd 1000, .pr_fail_err .poll_userfaultfd]⟩
        else
          let r := do_read s ev counter
          ⟨r.flow, r.counter, [.poll s.fd 1000, .pr_fail_err .poll_userfaultfd] ++ r.trace⟩
      else
        let r := do_read s ev counter
        ⟨r.flow, r.counter, .poll s.fd 1000 :: r.trace⟩
    | .ready revents =>
      if revents &&& POLLIN = 0 then
        ⟨.next, counter, [.poll s.fd 1000]⟩
      else
        let r := do_read s ev counter
        ⟨r.flow, r.counter, .poll s.fd 1000 :: r.trace⟩
  else
    do_read s ev counter

/-- State of the servicer loop after a script: `exited` tells whether the loop
was left, or is still running when the script ends. -/
structure LoopResult where
  counter : Nat
  trace : List Action
  exited : Bool
  deriving DecidableEq, Repr

/-- The `do { ... } while (opt_do_run && (!max_ops || *counter < max_ops))`
loop of the servicer, run over a script of iterations. -/
def servicer_loop (s : Servicer) : List IterInput → Nat → LoopResult
  | [], counter => ⟨counter, [], false⟩
  | ev :: rest, counter =>
    let it := servicer_body s ev counter
    match it.flow with
    | .brk => ⟨it.counter, it.trace, true⟩
    | .next =>
      if ev.run_cond && (s.max_ops == 0 || decide (it.counter < s.max_ops)) then
        let r := servicer_loop s rest it.counter
        ⟨r.counter, it.trace ++ r.trace, r.exited⟩
      else
        ⟨it.counter, it.trace, true⟩

/-! ## `stress_userfaultfd_oomable` -/

/-- Outcomes of the calls made by `stress_userfaultfd_oomable`, and the option
state it reads. -/
structure Env where
  /-- Value of `stress_get_pagesize()`. -/
  page_size : Nat
  set_userfaultfd_bytes : Bool
  opt_userfaultfd_bytes : Nat
  opt_flags : Nat
  /-- Address of the zero page, `none` when `posix_memalign` returns non-zero. -/
  posix_memalign : Option Nat
  /-- Address of the region, `none` when `mmap` returns `MAP_FAILED`. -/
  mmap : Option Nat
  /-- Value returned by `shim_userfaultfd(0)`. -/
  userfaultfd : Int
  /-- Value of `errno` after a failed `shim_userfaultfd`. -/
  errno_userfaultfd : Nat
  /-- Whether `stress_set_nonblock(fd)` returns a value `>= 0`. -/
  set_nonblock_ok : Bool
  ioctl_api_ok : Bool
  /-- Field `api.api` after the `UFFDIO_API` ioctl. -/
  api : Nat
  ioctl_register_ok : Bool
  /-- Field `reg.ioctls` after the `UFFDIO_REGISTER` ioctl. -/
  ioctls : Nat
  getpid : Nat
  /-- Value returned by `clone`. -/
  clone : Int
  /-- What the servicer loop meets, iteration by iteration. -/
  script : List IterInput
  waitpid_ok : Bool
  ioctl_unregister_ok : Bool

/-- Result of `stress_userfaultfd_oomable`: `rc` is `none` when the servicer
loop is still running at the end of the script. -/
structure Outcome where
  rc : Option Int
  counter : Nat
  trace : List Action
  deriving DecidableEq, Repr

/-- The `size_t` expression `~(page_size - 1)`. -/
def page_mask (page_size : Nat) : Nat :=
  SIZE_MOD - 1 - (page_size + (SIZE_MOD - 1)) % SIZE_MOD

/-- The value of `opt_userfaultfd_bytes` after the maximize and minimize
adjustments. -/
def userfaultfd_bytes (h : Harness) (env : Env) : Nat :=
  if !env.set_userfaultfd_bytes then
    let b :=
      if env.opt_flags &&& h.OPT_FLAGS_MAXIMIZE ≠ 0 then h.MAX_MMAP_BYTES
      else env.opt_userfaultfd_bytes
    if env.opt_flags &&& h.OPT_FLAGS_MINIMIZE ≠ 0 then h.MIN_MMAP_BYTES else b
  else
    env.opt_userfaultfd_bytes

/-- The region length `sz = opt_userfaultfd_bytes & ~(page_size - 1)`. -/
def userfaultfd_sz (bytes page_size : Nat) : Nat :=
  bytes &&& page_mask page_size

/-- Code from the label `free_zeropage` on. -/
def free_zeropage (zero_page : Nat) : List Action :=
  [.free zero_page]

/-- Code from the label `unmap_data` on. -/
def unmap_data (data sz zero_page : Nat) : List Action :=
  .munmap data sz :: free_zeropage zero_page

/-- Code from the label `unreg` on, entered with return code `rc`. -/
def unreg (env : Env) (fd : Int) (data sz zero_page : Nat) (rc : Int) : Int × List Action :=
  if !env.ioctl_unregister_ok then
    (EXIT_FAILURE,
      [.ioctl_unregister fd data sz false, .pr_err .ioctl_unregister_failed]
        ++ unmap_data data sz zero_page)
  else
    (rc, .ioctl_unregister fd data sz true :: unmap_data data sz zero_page)

/-- The function `stress_userfaultfd_oomable()`, called with the counter at
`counter`. -/
def stress_userfaultfd_oomable (h : Harness) (env : Env) (counter max_ops : Nat) : Outcome :=
  let page_size := env.page_size
  let uffdio_copy := 1 <<< _UFFDIO_COPY
  let uffdio_zeropage := 1 <<< _UFFDIO_ZEROPAGE
  let sz := userfaultfd_sz (userfaultfd_bytes h env) page_size
  match env.posix_memalign with
  | none =>
    ⟨some h.EXIT_NO_RESOURCE, counter,
      [.posix_memalign page_size page_size false, .pr_err .zero_page_allocation_failed]⟩
  | some zero_page =>
    match env.mmap with
    | none =>
      ⟨some h.EXIT_NO_RESOURCE, counter,
        [.posix_memalign page_size page_size true, .mmap sz false, .pr_err .mmap_failed]
          ++ free_zeropage zero_page⟩
    | some data =>
      let t1 : List Action := [.posix_memalign page_size page_size true, .mmap sz true]
      let fd := env.userfaultfd
      if fd < 0 then
        ⟨some (h.exit_status env.errno_userfaultfd), counter,
          t1 ++ [.userfaultfd 0 fd, .pr_err .userfaultfd_failed]
            ++ unmap_data data sz zero_page⟩
      else
        let do_poll := env.set_nonblock_ok
        let t2 := t1 ++ [.userfaultfd 0 fd, .set_nonblock fd env.set_nonblock_ok]
        if !env.ioctl_api_ok then
          ⟨some EXIT_FAILURE, counter,
            t2 ++ [.ioctl_api fd UFFD_API 0 false, .pr_err .ioctl_api_failed]
              ++ unmap_data data sz zero_page⟩
        else if env.api ≠ UFFD_API then
          ⟨some EXIT_FAILURE, counter,
            t2 ++ [.ioctl_api fd UFFD_API 0 true, .pr_err .api_check_failed]
              ++ unmap_data data sz zero_page⟩
        else
          let t3 := t2 ++ [.ioctl_api fd UFFD_API 0 true]
          if !env.ioctl_register_ok then
            ⟨some EXIT_FAILURE, counter,
              t3 ++ [.ioctl_register fd data sz UFFDIO_REGISTER_MODE_MISSING false,
                  .pr_err .ioctl_register_failed]
                ++ unmap_data data sz zero_page⟩
          else
            let t4 := t3 ++ [.ioctl_register fd data sz UFFDIO_REGISTER_MODE_MISSING true]
            if env.ioctls &&& uffdio_copy ≠ uffdio_copy then
              ⟨some EXIT_FAILURE, counter,
                t4 ++ [.pr_err .no_copy_support] ++ unmap_data data sz zero_page⟩
            else if env.ioctls &&& uffdio_zeropage ≠ uffdio_zeropage then
              ⟨some EXIT_FAILURE, counter,
                t4 ++ [.pr_err .no_zeropage_support] ++ unmap_data data sz zero_page⟩
            else
              let c : context_t := ⟨data, max_ops, page_size, sz, env.getpid⟩
              let pid := env.clone
              let t5 := t4 ++ [.getpid, .clone c pid]
              if pid < 0 then
                let u := unreg env fd data sz zero_page EXIT_SUCCESS
                ⟨some u.1, counter, t5 ++ [.pr_err .clone_failed] ++ u.2⟩
              else
                let s : Servicer := ⟨fd, do_poll, zero_page, data, sz, page_size, max_ops⟩
                let l := servicer_loop s env.script counter
                if !l.exited then
                  ⟨none, l.counter, t5 ++ l.trace⟩
                else
                  let w : List Action :=
                    if !env.waitpid_ok then
                      [.kill pid SIGKILL, .waitpid pid false, .pr_dbg .waitpid_failed]
                    else
                      [.kill pid SIGKILL, .waitpid pid true]
                  let u := unreg env fd data sz zero_page EXIT_SUCCESS
                  ⟨some u.1, l.counter, t5 ++ l.trace ++ w ++ u.2⟩

/-! ## `stress_userfaultfd` -/

/-- Outcomes of the calls made by `stress_userfaultfd` itself. -/
structure SupEnv where
  /-- Value returned by `fork`. -/
  fork : Int
  /-- Value of `errno` after a failed `fork`. -/
  errno_fork : Nat
  /-- First `waitpid`: the errno when it fails, the wait status otherwise. -/
  waitpid : Except Nat Nat
  /-- Content of `status` after the second `waitpid`. -/
  status_again : Nat

/-- How a call of `stress_userfaultfd` ends: the caller gets `rc` back, or
(in the forked child) the process leaves through `_exit` with the code that
`stress_userfaultfd_oomable` returned, when that call returns. -/
inductive SupResult
  | returned (rc : Int)
  | exits (code : Option Int)
  deriving DecidableEq, Repr

/-- The function `stress_userfaultfd()` on a platform with userfaultfd. -/
def stress_userfaultfd (h : Harness) (sup : SupEnv) (env : Env) (counter max_ops : Nat) :
    SupResult × List Action :=
  let pid := sup.fork
  if pid < 0 then
    if sup.errno_fork = EAGAIN then
      (.returned h.EXIT_NO_RESOURCE, [.fork pid])
    else
      (.returned EXIT_FAILURE, [.fork pid, .pr_err .fork_failed])
  else if pid > 0 then
    match sup.waitpid with
    | .error errno =>
      let d : List Action := if errno ≠ EINTR then [.pr_dbg .waitpid_failed] else []
      (.returned (WEXITSTATUS sup.status_again : Nat),
        [.fork pid, .setpgid pid, .waitpid pid false] ++ d
          ++ [.kill pid SIGTERM, .kill pid SIGKILL, .waitpid pid true])
    | .ok status =>
      if WIFSIGNALED status then
        if WTERMSIG status = SIGKILL then
          (.returned h.EXIT_NO_RESOURCE,
            [.fork pid, .setpgid pid, .waitpid pid true, .pr_dbg .child_died,
              .log_system_mem_info, .pr_dbg .assuming_oom_killer])
        else
          (.returned EXIT_FAILURE,
            [.fork pid, .setpgid pid, .waitpid pid true, .pr_dbg .child_died])
      else
        (.returned (WEXITSTATUS status : Nat), [.fork pid, .setpgid pid, .waitpid pid true])
  else
    let o := stress_userfaultfd_oomable h env counter max_ops
    (.exits o.rc, [.fork pid, .setpgid 0, .stress_parent_died_alarm] ++ o.trace)

/-! ## `stress_userfaultfd_child` -/

/-- What the environment supplies to one cycle of the generator loop. -/
structure CycleInput where
  /-- Whether `madvise` returns a value `>= 0`. -/
  madvise_ok : Bool
  /-- Flag `opt_do_run` in the loop condition. -/
  run_cond : Bool
  /-- Value of `*c->counter` read in the loop condition. -/
  counter : Nat
  deriving DecidableEq, Repr

/-- The loop `for (ptr = c->data; ptr < end; ptr += c->page_size) *ptr = 0xff;`
entered at `ptr`: the stores it makes, or `none` when `fuel` iterations do not
bring `ptr` to `end`. -/
def touch_pages : Nat → Nat → Nat → Nat → Option (List Action)
  | 0, _, _, _ => none
  | fuel + 1, ptr, end_ptr, page_size =>
    if ptr < end_ptr then
      match touch_pages fuel (ptr + page_size) end_ptr page_size with
      | none => none
      | some t => some (.store ptr 0xff :: t)
    else
      some []

/-- Result of the generator: `rc` is `none` when the loop is still running at
the end of the script of cycles. -/
structure ChildResult where
  rc : Option Int
  trace : List Action
  deriving DecidableEq, Repr

/-- The `do { ... } while (opt_do_run && (!c->max_ops || *c->counter < c->max_ops))`
loop of the generator over a script of cycles; `none` when a touch pass does
not end within `fuel` iterations. -/
def child_loop (c : context_t) (fuel : Nat) : List CycleInput → Option ChildResult
  | [] => some ⟨none, []⟩
  | cy :: rest =>
    if !cy.madvise_ok then
      some ⟨some (-1),
        [.madvise c.data c.sz MADV_DONTNEED false, .pr_fail_err .madvise_failed,
          .kill (c.parent : Nat) SIGALRM]⟩
    else
      match touch_pages fuel c.data (c.data + c.sz) c.page_size with
      | none => none
      | some t =>
        if cy.run_cond && (c.max_ops == 0 || decide (cy.counter < c.max_ops)) then
          match child_loop c fuel rest with
          | none => none
          | some r => some ⟨r.rc, .madvise c.data c.sz MADV_DONTNEED true :: t ++ r.trace⟩
        else
          some ⟨some 0, .madvise c.data c.sz MADV_DONTNEED true :: t⟩

/-- Outcomes of the calls made by `stress_userfaultfd_child`. -/
structure ChildEnv where
  /-- Whether `stress_sighandler` returns a value `>= 0`. -/
  sighandler_ok : Bool
  /-- What the generator loop meets, cycle by cycle. -/
  cycles : List CycleInput

/-- The function `stress_userfaultfd_child()`, run with context `c`. -/
def stress_userfaultfd_child (h : Harness) (c : context_t) (env : ChildEnv) (fuel : Nat) :
    Option ChildResult :=
  if !env.sighandler_ok then
    some ⟨some h.EXIT_NO_RESOURCE,
      [.setpgid 0, .stress_parent_died_alarm, .sighandler SIGALRM false]⟩
  else
    match child_loop c fuel env.cycles with
    | none => none
    | some r =>
      some ⟨r.rc, [.setpgid 0, .stress_parent_died_alarm, .sighandler SIGALRM true] ++ r.trace⟩

/-! ## `stress_set_dccp_opts` (`src/stress-dccp.c`) -/

/-- Send with `send()`. -/
def DCCP_OPT_SEND : Int := 0x01

/-- Send with `sendmsg()`. -/
def DCCP_OPT_SENDMSG : Int := 0x02

/-- Send with `sendmmsg()`. -/
def DCCP_OPT_SENDMMSG : Int := 0x03

/-- Entry of the option table, `dccp_opts_t`. -/
structure dccp_opts_t where
  optname : String
  opt : Int
  deriving DecidableEq, Repr

/-- The table `dccp_opts[]` up to its `NULL` end marker; `have_sendmmsg` tells
whether `HAVE_SENDMMSG` is defined. -/
def dccp_opts (have_sendmmsg : Bool) : List dccp_opts_t :=
  [⟨ "send", DCCP_OPT_SEND⟩, ⟨ "sendmsg", DCCP_OPT_SENDMSG⟩]
    ++ (if have_sendmmsg then [⟨ "sendmmsg", DCCP_OPT_SENDMMSG⟩] else [])

/-- The first loop of `stress_set_dccp_opts` over the entries from a position
on: the option of the first entry whose name `strcmp` finds equal to `optarg`. -/
def dccp_opts_find (optarg : String) : List dccp_opts_t → Option Int
  | [] => none
  | e :: rest => if optarg = e.optname then some e.opt else dccp_opts_find optarg rest

/-- The function `stress_set_dccp_opts()`, called with the static
`opt_dccp_opts` at the given value: the value returned and the new value of
`opt_dccp_opts`. -/
def stress_set_dccp_opts (have_sendmmsg : Bool) (opt_dccp_opts : Int) (optarg : String) :
    Int × Int :=
  match dccp_opts_find optarg (dccp_opts have_sendmmsg) with
  | some opt => (0, opt)
  | none => (-1, opt_dccp_opts)

/-! ## The random page of `stress_madvise` (`src/stress-madvise.c`) -/

/-- Modelled from the spec: the macro `KB` of `stress-ng.h`, a kilobyte of
1024 bytes. -/
def KB : Nat := 1024

/-- Modelled from the spec: the macro `MB` of `stress-ng.h`, a megabyte of
1024 kilobytes. -/
def MB : Nat := KB * KB

/-- The buffer length of `stress_madvise`: `sz = 4 * MB; sz &= ~(page_size - 1);`. -/
def madvise_sz (page_size : Nat) : Nat :=
  (4 * MB) &&& page_mask page_size

/-- The offset `m = (mwc64() % sz) & ~(page_size - 1)` of the randomly advised
page, for the random value `r`. -/
def madvise_offset (r sz page_size : Nat) : Nat :=
  (r % sz) &&& page_mask page_size

/-! ## The sync passes of `stress_sync_file` (`src/stress-sync-file.c`) -/

/-- The chunk size `sz = (mwc32() & 0x1fc00) + KB` for the random value `r`. -/
def sync_chunk (r : Nat) : Nat :=
  (r &&& 0x1fc00) + KB

/-- One call of `shim_sync_file_range`: the loop variable `offset` at the
call, the file offset passed and the number of bytes passed. -/
structure SyncCall where
  offset : Nat
  file_offset : Nat
  nbytes : Nat
  deriving DecidableEq, Repr

/-- The loops `for (offset = 0; offset < opt_sync_file_bytes; ) { ... offset += sz; }`
of the forward pass and (`backward = true`) of the reverse pass, entered at
`offset` with `i` random values drawn so far: the calls made, or `none` when
`fuel` iterations do not end the loop. `rnd i` is the value of the `i`-th
call of `mwc32()`. -/
def sync_pass (rnd : Nat → Nat) (bytes : Nat) (backward : Bool) :
    Nat → Nat → Nat → Option (List SyncCall)
  | 0, _, _ => none
  | fuel + 1, i, offset =>
    if offset < bytes then
      match sync_pass rnd bytes backward fuel (i + 1) (offset + sync_chunk (rnd i)) with
      | none => none
      | some t =>
        some (⟨offset, if backward then bytes - offset else offset, sync_chunk (rnd i)⟩ :: t)
    else
      some []

/-! ## Observers on traces -/

/-- A resolution ioctl that succeeded. -/
def is_resolution : Action → Bool
  | .ioctl_copy _ _ _ _ _ true => true
  | .ioctl_zeropage _ _ _ _ true => true
  | _ => false

/-- Number of faults resolved in a trace. -/
def resolved (t : List Action) : Nat :=
  t.countP is_resolution

/-- The iteration gets as far as the `read` of the fault device: the stop flag
is set at the top of the body and the poll stage, when there is one, does not
end the iteration. -/
def reaches_read (s : Servicer) (ev : IterInput) : Bool :=
  ev.run_top && (!s.do_poll ||
    match ev.poll with
    | .timeout => false
    | .error errno => errno != EINTR && (errno == ENOMEM || ev.run_poll)
    | .ready revents => revents &&& POLLIN != 0)

/-- The `read` of the iteration delivers a write page fault at `addr`. -/
def delivers_fault (ev : IterInput) (addr : Nat) : Bool :=
  match ev.read with
  | .error _ => false
  | .msg m =>
    m.event == UFFD_EVENT_PAGEFAULT && m.flags &&& UFFD_PAGEFAULT_FLAG_WRITE != 0
      && m.address == addr

/-- A call of `clone`. -/
def is_clone : Action → Bool
  | .clone _ _ => true
  | _ => false

/-- A call that opens the fault device. -/
def is_open : Action → Bool
  | .userfaultfd _ _ => true
  | _ => false

/-- A call that only the servicer loop makes. -/
def is_loop_action : Action → Bool
  | .poll _ _ => true
  | .read _ => true
  | .ioctl_copy _ _ _ _ _ _ => true
  | .ioctl_zeropage _ _ _ _ _ => true
  | _ => false

/-- A `close` of a file descriptor. -/
def is_close : Action → Bool
  | .close _ => true
  | _ => false

/-- An `UFFDIO_UNREGISTER` ioctl. -/
def is_unregister : Action → Bool
  | .ioctl_unregister _ _ _ _ => true
  | _ => false

/-- A `munmap` call. -/
def is_munmap : Action → Bool
  | .munmap _ _ => true
  | _ => false

/-- A `waitpid` call. -/
def is_waitpid : Action → Bool
  | .waitpid _ _ => true
  | _ => false

/-- A `read` of the fault device. -/
def is_read : Action → Bool
  | .read _ => true
  | _ => false

/-- A resolution ioctl, whatever its outcome. -/
def is_resolution_ioctl : Action → Bool
  | .ioctl_copy _ _ _ _ _ _ => true
  | .ioctl_zeropage _ _ _ _ _ => true
  | _ => false

/-- The region length the function computes from the options. -/
def region_sz (h : Harness) (env : Env) : Nat :=
  userfaultfd_sz (userfaultfd_bytes h env) env.page_size

/-- Allocation, open, handshake and registration all succeed. -/
def registered (env : Env) : Bool :=
  env.posix_memalign.isSome && env.mmap.isSome && decide (0 ≤ env.userfaultfd)
    && env.ioctl_api_ok && decide (env.api = UFFD_API) && env.ioctl_register_ok

/-- The capability mask of the registration has the copy and the zeropage bit. -/
def capable (env : Env) : Bool :=
  env.ioctls.testBit _UFFDIO_COPY && env.ioctls.testBit _UFFDIO_ZEROPAGE

/-- The servicer that the function runs once the setup is done. -/
def servicer_of (h : Harness) (env : Env) (zero_page data max_ops : Nat) : Servicer :=
  ⟨env.userfaultfd, env.set_nonblock_ok, zero_page, data, region_sz h env, env.page_size,
    max_ops⟩

/-- The calls of a setup that succeeds, up to and including `clone`. -/
def setup_trace (h : Harness) (env : Env) (data max_ops : Nat) : List Action :=
  [.posix_memalign env.page_size env.page_size true,
    .mmap (region_sz h env) true,
    .userfaultfd 0 env.userfaultfd,
    .set_nonblock env.userfaultfd env.set_nonblock_ok,
    .ioctl_api env.userfaultfd UFFD_API 0 true,
    .ioctl_register env.userfaultfd data (region_sz h env) UFFDIO_REGISTER_MODE_MISSING true,
    .getpid,
    .clone ⟨data, max_ops, env.page_size, region_sz h env, env.getpid⟩ env.clone]

/-- The calls that end the generator after the loop. -/
def kill_and_wait (env : Env) : List Action :=
  if !env.waitpid_ok then
    [.kill env.clone SIGKILL, .waitpid env.clone false, .pr_dbg .waitpid_failed]
  else
    [.kill env.clone SIGKILL, .waitpid env.clone true]

/-- Supervisor environment of the forked child. -/
def sample_child : SupEnv :=
  ⟨0, 0, .ok 0, 0⟩

/-- An `UFFDIO_UNREGISTER` ioctl or a `munmap` call. -/
def is_unregister_or_munmap (a : Action) : Bool :=
  is_unregister a || is_munmap a

/-- A call that the servicer loop can make: a loop action or a failure report. -/
def is_servicer_action : Action → Bool
  | .pr_fail_err _ => true
  | a => is_loop_action a

/-- The calls of one generator cycle that runs to its end on a region of whole
pages: the advice, then one store per page, from the first page up. -/
def cycle_trace (c : context_t) : List Action :=
  .madvise c.data c.sz MADV_DONTNEED true ::
    (List.range (c.sz / c.page_size)).map (fun k => .store (c.data + k * c.page_size) 0xff)

/-- The generator loop goes on after the cycle. -/
def cycle_continues (c : context_t) (cy : CycleInput) : Bool :=
  cy.run_cond && (c.max_ops == 0 || decide (cy.counter < c.max_ops))

/-- The calls of the generator before its loop, when the handler is installed. -/
def child_prefix : List Action :=
  [.setpgid 0, .stress_parent_died_alarm, .sighandler SIGALRM true]

/-- A call of the teardown: kill, waitpid, unregistration, munmap or free. -/
def is_teardown : Action → Bool
  | .kill _ _ => true
  | .waitpid _ _ => true
  | .ioctl_unregister _ _ _ _ => true
  | .munmap _ _ => true
  | .free _ => true
  | _ => false

/-- A failure report `pr_fail_err`. -/
def is_report : Action → Bool
  | .pr_fail_err _ => true
  | _ => false

/-- A `poll` of the fault device. -/
def is_poll : Action → Bool
  | .poll _ _ => true
  | _ => false

/-- An `UFFDIO_COPY` ioctl. -/
def is_copy : Action → Bool
  | .ioctl_copy _ _ _ _ _ _ => true
  | _ => false

/-- An `UFFDIO_ZEROPAGE` ioctl. -/
def is_zeropage : Action → Bool
  | .ioctl_zeropage _ _ _ _ _ => true
  | _ => false

/-- A `kill` call. -/
def is_kill : Action → Bool
  | .kill _ _ => true
  | _ => false

/-- The page range `(start, length)` that a resolution ioctl asks the kernel to
fill. -/
def ioctl_range : Action → Option (Nat × Nat)
  | .ioctl_copy _ dst _ len _ _ => some (dst, len)
  | .ioctl_zeropage _ start len _ _ => some (start, len)
  | _ => none

/-! ## Sample inputs -/

/-- Values of the harness constants as stress-ng defines them. -/
def sample_harness : Harness :=
  ⟨3, 4096, 1 <<< 32, 1, 2, fun e => if e = 12 then 3 else if e = 38 then 4 else 1⟩

/-- An iteration in which poll reports data and a write fault at `addr` is read. -/
def sample_fault (addr rnd : Nat) : IterInput :=
  ⟨true, .ready 1, true, .msg ⟨0x12, 1, addr⟩, true, rnd, true, true⟩

/-- Servicer of a four page region at `0x10000` with page size 4096. -/
def sample_servicer : Servicer :=
  ⟨5, true, 0x1000, 0x10000, 0x4000, 4096, 0⟩

/-- A run in which every setup call succeeds; two faults are resolved and the
third notification carries an address outside the region. -/
def sample_env : Env :=
  { page_size := 4096
    set_userfaultfd_bytes := true
    opt_userfaultfd_bytes := 16384 + 100
    opt_flags := 0
    posix_memalign := some 0x1000
    mmap := some 0x10000
    userfaultfd := 5
    errno_userfaultfd := 0
    set_nonblock_ok := true
    ioctl_api_ok := true
    api := 0xAA
    ioctl_register_ok := true
    ioctls := 0x1c
    getpid := 77
    clone := 78
    script := [sample_fault 0x10000 1, sample_fault 0x11000 2, sample_fault 0x20000 3,
      sample_fault 0x12000 3]
    waitpid_ok := true
    ioctl_unregister_ok := true }

/-- The sample run with a capability mask that lacks the copy bit. -/
def sample_env_no_copy : Env :=
  { sample_env with ioctls := 0x14 }

/-- The sample run with a failing unregistration. -/
def sample_env_unreg_fails : Env :=
  { sample_env with ioctl_unregister_ok := false }

/-- Generator context of the sample run. -/
def sample_context : context_t :=
  ⟨0x10000, 0, 4096, 0x4000, 77⟩

/-- An iteration in which poll reports data and the read fails with `EIO`
while the stop flag stays set. -/
def sample_read_failure : IterInput :=
  ⟨true, .ready 1, true, .error 5, true, 0, true, true⟩

/-- An iteration in which poll fails with `EINTR` while a write fault at
`0x10000` waits to be read. -/
def sample_poll_eintr : IterInput :=
  ⟨true, .error EINTR, true, .msg ⟨0x12, 1, 0x10000⟩, true, 1, true, true⟩

/-- An iteration in which poll times out. -/
def sample_poll_timeout : IterInput :=
  ⟨true, .timeout, true, .msg ⟨0x12, 1, 0x10000⟩, true, 1, true, true⟩

/-- An iteration in which poll reports data and the notification read is not
a page fault event. -/
def sample_other_event : IterInput :=
  ⟨true, .ready 1, true, .msg ⟨0x13, 1, 0x10000⟩, true, 1, true, true⟩

/-- An iteration in which poll reports data and the read is interrupted. -/
def sample_read_eintr : IterInput :=
  ⟨true, .ready 1, true, .error EINTR, true, 1, true, true⟩

/-- The sample run in which the resolution ioctl of the second fault fails. -/
def sample_env_ioctl_fails : Env :=
  { sample_env with
    script := [sample_fault 0x10000 1,
      ⟨true, .ready 1, true, .msg ⟨0x12, 1, 0x11000⟩, true, 2, false, true⟩,
      sample_fault 0x12000 3] }

/-- The sample servicer with an operation ceiling of two. -/
def sample_servicer_ceiling : Servicer :=
  { sample_servicer with max_ops := 2 }

/-- The sample run with a failing `clone`. -/
def sample_env_clone_fails : Env :=
  { sample_env with clone := -1 }

/-- Supervisor environment in which the first `waitpid` fails with `EINTR`
and the child is then found killed by `SIGKILL`. -/
def sample_waitpid_fails : SupEnv :=
  ⟨100, 0, .error EINTR, 9⟩

/-! ## Lemmas on the servicer loop -/

theorem resolved_nil : resolved [] = 0 := rfl

theorem resolved_append (a b : List Action) : resolved (a ++ b) = resolved a + resolved b := by
  simp [resolved, List.countP_append]

theorem handle_page_fault_resolved (fd : Int) (addr zp ds de ps rnd : Nat) (ok : Bool) :
    ((handle_page_fault fd addr zp ds de ps rnd ok).1 = 0 ∧
        resolved (handle_page_fault fd addr zp ds de ps rnd ok).2 = 1) ∨
      ((handle_page_fault fd addr zp ds de ps rnd ok).1 = -1 ∧
        resolved (handle_page_fault fd addr zp ds de ps rnd ok).2 = 0) := by
  unfold handle_page_fault
  cases ok <;> split_ifs <;> simp [resolved, is_resolution]

theorem resolved_cons (a : Action) (t : List Action) :
    resolved (a :: t) = (if is_resolution a then 1 else 0) + resolved t := by
  simp [resolved, List.countP_cons, Nat.add_comm]

theorem do_read_counter (s : Servicer) (ev : IterInput) (c : Nat) (hc : c < SIZE_MOD) :
    (do_read s ev c).counter = (c + resolved (do_read s ev c).trace) % SIZE_MOD := by
  have hc0 : c % SIZE_MOD = c := Nat.mod_eq_of_lt hc
  unfold do_read
  split
  · split_ifs <;> simp [resolved_cons, resolved_nil, is_resolution, hc0]
  · rename_i m _
    rcases handle_page_fault_resolved s.fd m.address s.zero_page s.data (s.data + s.sz)
      s.page_size ev.rnd ev.ioctl_ok with ⟨h1, h2⟩ | ⟨h1, h2⟩
    · split_ifs <;> simp [resolved_cons, resolved_nil, is_resolution, hc0, h1, h2]
    · split_ifs <;> simp [resolved_cons, resolved_nil, is_resolution, hc0, h1, h2]

theorem servicer_body_counter (s : Servicer) (ev : IterInput) (c : Nat) (hc : c < SIZE_MOD) :
    (servicer_body s ev c).counter = (c + resolved (servicer_body s ev c).trace) % SIZE_MOD := by
  have hc0 : c % SIZE_MOD = c := Nat.mod_eq_of_lt hc
  have hr := do_read_counter s ev c hc
  unfold servicer_body
  cases ev.poll <;> dsimp only <;> split_ifs <;>
    simp [resolved_cons, resolved_nil, resolved_append, is_resolution, hc0, ← hr]

theorem servicer_body_counter_lt (s : Servicer) (ev : IterInput) (c : Nat) (hc : c < SIZE_MOD) :
    (servicer_body s ev c).counter < SIZE_MOD := by
  rw [servicer_body_counter s ev c hc]
  exact Nat.mod_lt _ (by decide)

theorem servicer_loop_counter (s : Servicer) (script : List IterInput) :
    ∀ c, c < SIZE_MOD →
      (servicer_loop s script c).counter
        = (c + resolved (servicer_loop s script c).trace) % SIZE_MOD := by
  induction script with
  | nil =>
    intro c hc
    simp [servicer_loop, resolved_nil, Nat.mod_eq_of_lt hc]
  | cons ev rest ih =>
    intro c hc
    have hb := servicer_body_counter s ev c hc
    have hlt := servicer_body_counter_lt s ev c hc
    have hi := ih _ hlt
    simp only [servicer_loop]
    split
    · exact hb
    · split_ifs
      · simp only [resolved_append]
        rw [hi]
        generalize resolved (servicer_loop s rest (servicer_body s ev c).counter).trace = R
        rw [hb]
        simp only [SIZE_MOD]
        omega
      · exact hb

theorem servicer_loop_append (s : Servicer) (pre rest : List IterInput) :
    ∀ c, (servicer_loop s pre c).exited = false →
      servicer_loop s (pre ++ rest) c =
        ⟨(servicer_loop s rest (servicer_loop s pre c).counter).counter,
          (servicer_loop s pre c).trace
            ++ (servicer_loop s rest (servicer_loop s pre c).counter).trace,
          (servicer_loop s rest (servicer_loop s pre c).counter).exited⟩ := by
  induction pre with
  | nil =>
    intro c _
    simp [servicer_loop]
  | cons ev pre ih =>
    intro c hex
    simp only [servicer_loop, List.cons_append] at hex ⊢
    split at hex
    · simp at hex
    · split_ifs at hex with hcond
      · simp only [hcond, if_true]
        simp only [List.append_eq, ih _ hex, List.append_assoc]

theorem servicer_body_of_reaches_read (s : Servicer) (ev : IterInput) (c : Nat)
    (h : reaches_read s ev = true) :
    ∃ pre : List Action,
      (∀ a ∈ pre, a = .poll s.fd 1000 ∨ a = .pr_fail_err .poll_userfaultfd) ∧
      servicer_body s ev c =
        ⟨(do_read s ev c).flow, (do_read s ev c).counter, pre ++ (do_read s ev c).trace⟩ := by
  unfold reaches_read at h
  unfold servicer_body
  cases hd : s.do_poll
  · cases ht : ev.run_top
    · simp [ht] at h
    · exact ⟨[], by simp⟩
  · cases ht : ev.run_top
    · simp [ht] at h
    · cases hp : ev.poll with
      | timeout => simp [hp, hd, ht] at h
      | error errno =>
        simp only [hp, hd, ht, Bool.not_true, Bool.false_or, Bool.true_and, Bool.and_eq_true,
          bne_iff_ne, Bool.or_eq_true, beq_iff_eq] at h
        obtain ⟨h1, h2⟩ := h
        by_cases h3 : errno = ENOMEM
        · refine ⟨[.poll s.fd 1000], by simp, ?_⟩
          simp [h3, show ENOMEM ≠ EINTR by decide]
        · have h4 : ev.run_poll = true := by
            rcases h2 with h2 | h2
            · exact absurd h2 h3
            · exact h2
          refine ⟨[.poll s.fd 1000, .pr_fail_err .poll_userfaultfd], by simp, ?_⟩
          simp [h1, h3, h4]
      | ready revents =>
        simp only [hp, hd, ht, Bool.not_true, Bool.false_or, Bool.true_and, bne_iff_ne] at h
        refine ⟨[.poll s.fd 1000], by simp, ?_⟩
        simp [h]

theorem do_read_out_of_range (s : Servicer) (ev : IterInput) (c addr : Nat)
    (hd : delivers_fault ev addr = true) (hoor : addr < s.data ∨ addr ≥ s.data + s.sz) :
    do_read s ev c = ⟨.brk, c, [.read s.fd, .pr_fail_err .address_out_of_range]⟩ := by
  unfold delivers_fault at hd
  unfold do_read
  cases hr : ev.read with
  | error e => simp [hr] at hd
  | msg m =>
    simp only [hr, Bool.and_eq_true, beq_iff_eq, bne_iff_ne] at hd
    obtain ⟨⟨h1, h2⟩, h3⟩ := hd
    subst h3
    simp [h1, h2, handle_page_fault, hoor]

theorem servicer_loop_out_of_range (s : Servicer) (ev : IterInput)
    (c addr : Nat) (hr : reaches_read s ev = true) (hd : delivers_fault ev addr = true)
    (hoor : addr < s.data ∨ addr ≥ s.data + s.sz) :
    ∃ pre : List Action,
      (∀ a ∈ pre, a = .poll s.fd 1000 ∨ a = .pr_fail_err .poll_userfaultfd) ∧
      ∀ rest, servicer_loop s (ev :: rest) c =
        ⟨c, pre ++ [.read s.fd, .pr_fail_err .address_out_of_range], true⟩ := by
  obtain ⟨pre, hpre, hb⟩ := servicer_body_of_reaches_read s ev c hr
  rw [do_read_out_of_range s ev c addr hd hoor] at hb
  exact ⟨pre, hpre, fun rest => by simp [servicer_loop, hb]⟩

theorem capability_bit (n k : Nat) : n &&& (1 <<< k) = 1 <<< k ↔ n.testBit k = true := by
  rw [Nat.one_shiftLeft, Nat.and_two_pow]
  have hpos : 0 < 2 ^ k := Nat.two_pow_pos k
  cases n.testBit k
  · simp
    omega
  · simp

theorem capable_iff (env : Env) :
    capable env = true ↔
      env.ioctls &&& (1 <<< _UFFDIO_COPY) = 1 <<< _UFFDIO_COPY ∧
        env.ioctls &&& (1 <<< _UFFDIO_ZEROPAGE) = 1 <<< _UFFDIO_ZEROPAGE := by
  simp [capable, capability_bit]

theorem registered_iff (env : Env) :
    registered env = true ↔
      (∃ zp, env.posix_memalign = some zp) ∧ (∃ data, env.mmap = some data) ∧
        0 ≤ env.userfaultfd ∧ env.ioctl_api_ok = true ∧ env.api = UFFD_API ∧
        env.ioctl_register_ok = true := by
  simp [registered, Option.isSome_iff_exists, and_assoc]

theorem oomable_of_setup (h : Harness) (env : Env) (c mo zp data : Nat)
    (hz : env.posix_memalign = some zp) (hm : env.mmap = some data)
    (hr : registered env = true) (hcap : capable env = true) :
    stress_userfaultfd_oomable h env c mo =
      if env.clone < 0 then
        ⟨some (unreg env env.userfaultfd data (region_sz h env) zp EXIT_SUCCESS).1, c,
          setup_trace h env data mo ++ [.pr_err .clone_failed]
            ++ (unreg env env.userfaultfd data (region_sz h env) zp EXIT_SUCCESS).2⟩
      else if !(servicer_loop (servicer_of h env zp data mo) env.script c).exited then
        ⟨none, (servicer_loop (servicer_of h env zp data mo) env.script c).counter,
          setup_trace h env data mo
            ++ (servicer_loop (servicer_of h env zp data mo) env.script c).trace⟩
      else
        ⟨some (unreg env env.userfaultfd data (region_sz h env) zp EXIT_SUCCESS).1,
          (servicer_loop (servicer_of h env zp data mo) env.script c).counter,
          setup_trace h env data mo
            ++ (servicer_loop (servicer_of h env zp data mo) env.script c).trace
            ++ kill_and_wait env
            ++ (unreg env env.userfaultfd data (region_sz h env) zp EXIT_SUCCESS).2⟩ := by
  obtain ⟨-, -, hfd, hapi, hver, hreg⟩ := (registered_iff env).1 hr
  obtain ⟨hc1, hc2⟩ := (capable_iff env).1 hcap
  have hfd' : ¬ env.userfaultfd < 0 := not_lt.mpr hfd
  unfold stress_userfaultfd_oomable
  simp only [hz, hm, hfd', hapi, hver, hreg, hc1, hc2, if_false, Bool.not_true, ne_eq,
    not_true_eq_false, Bool.false_eq_true]
  by_cases hcl : env.clone < 0
  · simp [hcl, setup_trace, region_sz]
  · simp only [hcl, if_false]
    by_cases hex : (servicer_loop (servicer_of h env zp data mo) env.script c).exited = true
    · simp only [servicer_of, region_sz] at hex
      simp [hex, setup_trace, region_sz, servicer_of, kill_and_wait]
    · simp only [servicer_of, region_sz] at hex
      simp [hex, setup_trace, region_sz, servicer_of]

theorem unreg_rc (env : Env) (fd : Int) (data sz zp : Nat) (rc : Int) :
    (unreg env fd data sz zp rc).1 = if env.ioctl_unregister_ok then rc else EXIT_FAILURE := by
  unfold unreg
  cases env.ioctl_unregister_ok <;> simp

theorem not_signaled_of_exited (status : Nat) (h : WIFEXITED status = true) :
    WIFSIGNALED status = false := by
  have h0 : status &&& 0x7f = 0 := by simpa [WIFEXITED, WTERMSIG] using h
  unfold WIFSIGNALED
  rw [h0]
  decide

theorem oomable_of_failed_setup (h : Harness) (env : Env) (c mo : Nat)
    (herr : registered env = false ∨ capable env = false) :
    (stress_userfaultfd_oomable h env c mo).rc.isSome = true ∧
      (stress_userfaultfd_oomable h env c mo).counter = c ∧
      (stress_userfaultfd_oomable h env c mo).trace.any is_clone = false ∧
      (stress_userfaultfd_oomable h env c mo).trace.any is_loop_action = false ∧
      (stress_userfaultfd_oomable h env c mo).trace.any is_unregister = false := by
  unfold stress_userfaultfd_oomable
  cases hz : env.posix_memalign with
  | none => simp [is_clone, is_loop_action, is_unregister]
  | some zp =>
    cases hm : env.mmap with
    | none => simp [is_clone, is_loop_action, is_unregister, free_zeropage]
    | some data =>
      dsimp only
      by_cases h1 : env.userfaultfd < 0
      · simp [h1, is_clone, is_loop_action, is_unregister, unmap_data, free_zeropage]
      · by_cases h2 : env.ioctl_api_ok = true
        · by_cases h3 : env.api = UFFD_API
          · by_cases h4 : env.ioctl_register_ok = true
            · by_cases h5 : env.ioctls &&& (1 <<< _UFFDIO_COPY) = 1 <<< _UFFDIO_COPY
              · by_cases h6 :
                    env.ioctls &&& (1 <<< _UFFDIO_ZEROPAGE) = 1 <<< _UFFDIO_ZEROPAGE
                · exfalso
                  have hr : registered env = true :=
                    (registered_iff env).2 ⟨⟨zp, hz⟩, ⟨data, hm⟩, not_lt.mp h1, h2, h3, h4⟩
                  have hc : capable env = true := (capable_iff env).2 ⟨h5, h6⟩
                  rcases herr with he | he
                  · rw [hr] at he
                    exact Bool.noConfusion he
                  · rw [hc] at he
                    exact Bool.noConfusion he
                · simp [h1, h2, h3, h4, h5, h6, is_clone, is_loop_action, is_unregister,
                    unmap_data, free_zeropage]
              · simp [h1, h2, h3, h4, h5, is_clone, is_loop_action, is_unregister,
                  unmap_data, free_zeropage]
            · simp [h1, h2, h3, h4, is_clone, is_loop_action, is_unregister, unmap_data,
                free_zeropage]
          · simp [h1, h2, h3, is_clone, is_loop_action, is_unregister, unmap_data,
              free_zeropage]
        · simp [h1, h2, is_clone, is_loop_action, is_unregister, unmap_data, free_zeropage]

theorem oomable_failed_setup_any_script (h : Harness) (env : Env) (c mo : Nat)
    (herr : registered env = false ∨ capable env = false) (script : List IterInput) :
    stress_userfaultfd_oomable h { env with script := script } c mo
      = stress_userfaultfd_oomable h env c mo := by
  unfold stress_userfaultfd_oomable
  have hb : userfaultfd_bytes h { env with script := script } = userfaultfd_bytes h env := rfl
  simp only [hb]
  cases hz : env.posix_memalign with
  | none => rfl
  | some zp =>
    cases hm : env.mmap with
    | none => rfl
    | some data =>
      dsimp only
      by_cases h1 : env.userfaultfd < 0
      · simp [h1]
      · by_cases h2 : env.ioctl_api_ok = true
        · by_cases h3 : env.api = UFFD_API
          · by_cases h4 : env.ioctl_register_ok = true
            · by_cases h5 : env.ioctls &&& (1 <<< _UFFDIO_COPY) = 1 <<< _UFFDIO_COPY
              · by_cases h6 :
                    env.ioctls &&& (1 <<< _UFFDIO_ZEROPAGE) = 1 <<< _UFFDIO_ZEROPAGE
                · exfalso
                  have hr : registered env = true :=
                    (registered_iff env).2 ⟨⟨zp, hz⟩, ⟨data, hm⟩, not_lt.mp h1, h2, h3, h4⟩
                  have hc : capable env = true := (capable_iff env).2 ⟨h5, h6⟩
                  rcases herr with he | he
                  · rw [hr] at he
                    exact Bool.noConfusion he
                  · rw [hc] at he
                    exact Bool.noConfusion he
                · simp [h1, h2, h3, h4, h5, h6]
              · simp [h1, h2, h3, h4, h5]
            · simp [h1, h2, h3, h4]
          · simp [h1, h2, h3]
        · simp [h1, h2]

theorem setup_trace_has_clone (h : Harness) (env : Env) (data mo : Nat) :
    (setup_trace h env data mo).any is_clone = true := by
  simp [setup_trace, is_clone]

theorem oomable_clone_of_setup (h : Harness) (env : Env) (c mo : Nat)
    (hr : registered env = true) (hcap : capable env = true) :
    (stress_userfaultfd_oomable h env c mo).trace.any is_clone = true := by
  obtain ⟨⟨zp, hz⟩, ⟨data, hm⟩, -⟩ := (registered_iff env).1 hr
  have hs := setup_trace_has_clone h env data mo
  rw [oomable_of_setup h env c mo zp data hz hm hr hcap]
  split_ifs <;> simp only [List.any_append, hs, Bool.true_or]

theorem oomable_copy_unsupported (h : Harness) (env : Env) (c mo zp data : Nat)
    (hz : env.posix_memalign = some zp) (hm : env.mmap = some data)
    (hr : registered env = true) (hcopy : env.ioctls.testBit _UFFDIO_COPY = false) :
    stress_userfaultfd_oomable h env c mo =
      ⟨some EXIT_FAILURE, c,
        [.posix_memalign env.page_size env.page_size true,
          .mmap (region_sz h env) true,
          .userfaultfd 0 env.userfaultfd,
          .set_nonblock env.userfaultfd env.set_nonblock_ok,
          .ioctl_api env.userfaultfd UFFD_API 0 true,
          .ioctl_register env.userfaultfd data (region_sz h env)
            UFFDIO_REGISTER_MODE_MISSING true,
          .pr_err .no_copy_support,
          .munmap data (region_sz h env),
          .free zp]⟩ := by
  obtain ⟨-, -, hfd, hapi, hver, hreg⟩ := (registered_iff env).1 hr
  have hfd' : ¬ env.userfaultfd < 0 := not_lt.mpr hfd
  have hc : ¬ env.ioctls &&& (1 <<< _UFFDIO_COPY) = 1 <<< _UFFDIO_COPY := by
    rw [capability_bit, hcopy]
    exact Bool.noConfusion
  unfold stress_userfaultfd_oomable
  simp [hz, hm, hfd', hapi, hver, hreg, hc, unmap_data, free_zeropage, region_sz]

theorem handle_page_fault_trace_all (fd : Int) (addr zp ds de ps rnd : Nat) (ok : Bool) :
    (handle_page_fault fd addr zp ds de ps rnd ok).2.all is_servicer_action = true := by
  unfold handle_page_fault
  cases ok <;> split_ifs <;> simp [is_servicer_action, is_loop_action]

theorem do_read_trace_all (s : Servicer) (ev : IterInput) (c : Nat) :
    (do_read s ev c).trace.all is_servicer_action = true := by
  unfold do_read
  split
  · split_ifs <;> simp [is_servicer_action, is_loop_action]
  · rename_i m _
    have hh := handle_page_fault_trace_all s.fd m.address s.zero_page s.data (s.data + s.sz)
      s.page_size ev.rnd ev.ioctl_ok
    dsimp only
    split_ifs <;> simp only [List.all_cons, hh] <;> simp [is_servicer_action, is_loop_action]

theorem servicer_body_trace_all (s : Servicer) (ev : IterInput) (c : Nat) :
    (servicer_body s ev c).trace.all is_servicer_action = true := by
  have hr := do_read_trace_all s ev c
  unfold servicer_body
  cases ev.poll <;> dsimp only <;> split_ifs <;>
    simp only [List.all_cons, List.all_append, List.all_nil, hr] <;>
    simp [is_servicer_action, is_loop_action]

theorem servicer_loop_trace_all (s : Servicer) (script : List IterInput) :
    ∀ c, (servicer_loop s script c).trace.all is_servicer_action = true := by
  induction script with
  | nil => intro c; simp [servicer_loop]
  | cons ev rest ih =>
    intro c
    have hb := servicer_body_trace_all s ev c
    simp only [servicer_loop]
    split
    · exact hb
    · split_ifs
      · simp only [List.all_append, hb, ih, Bool.and_self]
      · exact hb

theorem servicer_loop_filter_teardown (s : Servicer) (script : List IterInput) (c : Nat) :
    (servicer_loop s script c).trace.filter is_unregister_or_munmap = [] := by
  rw [List.filter_eq_nil_iff]
  intro a ha
  have h1 := List.all_eq_true.1 (servicer_loop_trace_all s script c) a ha
  cases a <;>
    simp_all [is_servicer_action, is_loop_action, is_unregister_or_munmap, is_unregister,
      is_munmap]

theorem oomable_opened_failed_setup (h : Harness) (env : Env) (c mo zp data : Nat)
    (hz : env.posix_memalign = some zp) (hm : env.mmap = some data)
    (hfd : 0 ≤ env.userfaultfd)
    (herr : registered env = false ∨ capable env = false) :
    (stress_userfaultfd_oomable h env c mo).trace.reverse.take 2
        = [.free zp, .munmap data (region_sz h env)] ∧
      (stress_userfaultfd_oomable h env c mo).trace.filter is_unregister_or_munmap
        = [.munmap data (region_sz h env)] := by
  have h1 : ¬ env.userfaultfd < 0 := not_lt.mpr hfd
  unfold stress_userfaultfd_oomable
  simp only [hz, hm, h1, if_false]
  by_cases h2 : env.ioctl_api_ok = true
  · by_cases h3 : env.api = UFFD_API
    · by_cases h4 : env.ioctl_register_ok = true
      · by_cases h5 : env.ioctls &&& (1 <<< _UFFDIO_COPY) = 1 <<< _UFFDIO_COPY
        · by_cases h6 : env.ioctls &&& (1 <<< _UFFDIO_ZEROPAGE) = 1 <<< _UFFDIO_ZEROPAGE
          · exfalso
            have hr : registered env = true :=
              (registered_iff env).2 ⟨⟨zp, hz⟩, ⟨data, hm⟩, hfd, h2, h3, h4⟩
            have hc : capable env = true := (capable_iff env).2 ⟨h5, h6⟩
            rcases herr with he | he
            · rw [hr] at he
              exact Bool.noConfusion he
            · rw [hc] at he
              exact Bool.noConfusion he
          · simp [h2, h3, h4, h5, h6, is_unregister_or_munmap, is_unregister, is_munmap,
              unmap_data, free_zeropage, region_sz]
        · simp [h2, h3, h4, h5, is_unregister_or_munmap, is_unregister, is_munmap,
            unmap_data, free_zeropage, region_sz]
      · simp [h2, h3, h4, is_unregister_or_munmap, is_unregister, is_munmap, unmap_data,
          free_zeropage, region_sz]
    · simp [h2, h3, is_unregister_or_munmap, is_unregister, is_munmap, unmap_data,
        free_zeropage, region_sz]
  · simp [h2, is_unregister_or_munmap, is_unregister, is_munmap, unmap_data, free_zeropage,
      region_sz]

theorem unreg_trace_tail (env : Env) (fd : Int) (data sz zp : Nat) (rc : Int) :
    (unreg env fd data sz zp rc).2.reverse.take 2 = [.free zp, .munmap data sz] ∧
      (unreg env fd data sz zp rc).2.filter is_unregister_or_munmap
        = [.ioctl_unregister fd data sz env.ioctl_unregister_ok, .munmap data sz] := by
  unfold unreg
  cases env.ioctl_unregister_ok <;>
    simp [unmap_data, free_zeropage, is_unregister_or_munmap, is_unregister, is_munmap]

theorem unreg_trace_length (env : Env) (fd : Int) (data sz zp : Nat) (rc : Int) :
    2 ≤ (unreg env fd data sz zp rc).2.length := by
  unfold unreg
  cases env.ioctl_unregister_ok <;> simp [unmap_data, free_zeropage]

theorem reverse_take_two_append (a b : List Action) (hb : 2 ≤ b.length) :
    (a ++ b).reverse.take 2 = b.reverse.take 2 := by
  rw [List.reverse_append, List.take_append_of_le_length]
  simpa using hb

theorem setup_trace_filter (h : Harness) (env : Env) (data mo : Nat) :
    (setup_trace h env data mo).filter is_unregister_or_munmap = [] := by
  simp [setup_trace, is_unregister_or_munmap, is_unregister, is_munmap]

theorem kill_and_wait_filter (env : Env) :
    (kill_and_wait env).filter is_unregister_or_munmap = [] := by
  unfold kill_and_wait
  cases env.waitpid_ok <;> simp [is_unregister_or_munmap, is_unregister, is_munmap]

theorem oomable_opened_setup_ok (h : Harness) (env : Env) (c mo zp data : Nat)
    (hz : env.posix_memalign = some zp) (hm : env.mmap = some data)
    (hr : registered env = true) (hcap : capable env = true)
    (hret : (stress_userfaultfd_oomable h env c mo).rc.isSome = true) :
    (stress_userfaultfd_oomable h env c mo).trace.reverse.take 2
        = [.free zp, .munmap data (region_sz h env)] ∧
      setup_trace h env data mo <+: (stress_userfaultfd_oomable h env c mo).trace ∧
      (stress_userfaultfd_oomable h env c mo).trace.filter is_unregister_or_munmap
        = [.ioctl_unregister env.userfaultfd data (region_sz h env) env.ioctl_unregister_ok,
            .munmap data (region_sz h env)] := by
  have ht := unreg_trace_tail env env.userfaultfd data (region_sz h env) zp EXIT_SUCCESS
  have hl := unreg_trace_length env env.userfaultfd data (region_sz h env) zp EXIT_SUCCESS
  have hs := setup_trace_filter h env data mo
  have hk := kill_and_wait_filter env
  have hf := servicer_loop_filter_teardown (servicer_of h env zp data mo) env.script c
  rw [oomable_of_setup h env c mo zp data hz hm hr hcap] at hret ⊢
  split_ifs at hret ⊢ with h1 h2
  · refine ⟨?_, ?_, ?_⟩
    · rw [reverse_take_two_append _ _ hl]
      exact ht.1
    · simp only [List.append_assoc]
      exact List.prefix_append _ _
    · simp [List.filter_append, hs, ht.2, is_unregister_or_munmap, is_unregister, is_munmap]
  · simp at hret
  · refine ⟨?_, ?_, ?_⟩
    · rw [reverse_take_two_append _ _ hl]
      exact ht.1
    · simp only [List.append_assoc]
      exact List.prefix_append _ _
    · simp only [List.filter_append, hs, hk, hf, ht.2, List.nil_append]

/-! ## Lemmas on the region size -/

theorem page_mask_two_pow (k : Nat) (hk : k < 64) : page_mask (2 ^ k) = 2 ^ 64 - 2 ^ k := by
  have h1 : 0 < 2 ^ k := Nat.two_pow_pos k
  have h2 : 2 ^ k < 2 ^ 64 := Nat.pow_lt_pow_right (by decide) hk
  unfold page_mask SIZE_MOD
  have h3 : (2 ^ k + (2 ^ 64 - 1)) % 2 ^ 64 = 2 ^ k - 1 := by
    have h4 : 2 ^ k + (2 ^ 64 - 1) = (2 ^ k - 1) + 2 ^ 64 := by omega
    rw [h4, Nat.add_mod_right]
    exact Nat.mod_eq_of_lt (by omega)
  rw [h3]
  omega

theorem and_high_mask (b k : Nat) (hb : b < 2 ^ 64) (hk : k < 64) :
    b &&& (2 ^ 64 - 2 ^ k) = b - b % 2 ^ k := by
  have h1 : 2 ^ 64 - 2 ^ k = (2 ^ (64 - k) - 1) <<< k := by
    rw [Nat.shiftLeft_eq, Nat.sub_mul, ← pow_add, Nat.sub_add_cancel (le_of_lt hk), one_mul]
  have h2 : b - b % 2 ^ k = (b >>> k) <<< k := by
    rw [Nat.shiftLeft_eq, Nat.shiftRight_eq_div_pow]
    have h3 := Nat.div_add_mod b (2 ^ k)
    rw [Nat.mul_comm] at h3
    omega
  rw [h1, h2]
  apply Nat.eq_of_testBit_eq
  intro i
  rw [Nat.testBit_and, Nat.testBit_shiftLeft, Nat.testBit_shiftLeft,
    Nat.testBit_two_pow_sub_one, Nat.testBit_shiftRight]
  by_cases hik : k ≤ i
  · have hki : k + (i - k) = i := by omega
    rw [hki]
    by_cases hi : i < 64
    · have h4 : i - k < 64 - k := by omega
      simp [hik, h4]
    · have hbi : b.testBit i = false := by
        apply Nat.testBit_eq_false_of_lt
        calc b < 2 ^ 64 := hb
          _ ≤ 2 ^ i := Nat.pow_le_pow_right (by decide) (by omega)
      simp [hbi]
  · simp [hik]

theorem userfaultfd_sz_two_pow (b k : Nat) (hb : b < SIZE_MOD) (hk : k < 64) :
    userfaultfd_sz b (2 ^ k) = b - b % 2 ^ k := by
  unfold userfaultfd_sz
  rw [page_mask_two_pow k hk]
  exact and_high_mask b k hb hk

/-! ## Lemmas on the teardown -/

theorem reverse_take_append (a b : List Action) (n : Nat) (hb : n ≤ b.length) :
    (a ++ b).reverse.take n = b.reverse.take n := by
  rw [List.reverse_append, List.take_append_of_le_length]
  simpa using hb

theorem unreg_failed (env : Env) (fd : Int) (data sz zp : Nat) (rc : Int)
    (hfail : env.ioctl_unregister_ok = false) :
    unreg env fd data sz zp rc =
      (EXIT_FAILURE,
        [.ioctl_unregister fd data sz false, .pr_err .ioctl_unregister_failed,
          .munmap data sz, .free zp]) := by
  simp [unreg, hfail, unmap_data, free_zeropage]

/-! ## Lemmas on the generator -/

theorem touch_pages_eq (ps : Nat) (hps : 0 < ps) :
    ∀ (n fuel ptr : Nat), n < fuel →
      touch_pages fuel ptr (ptr + n * ps) ps
        = some ((List.range n).map (fun k => Action.store (ptr + k * ps) 0xff)) := by
  intro n
  induction n with
  | zero =>
    intro fuel ptr hf
    cases fuel with
    | zero => omega
    | succ f => simp [touch_pages]
  | succ n ih =>
    intro fuel ptr hf
    cases fuel with
    | zero => omega
    | succ f =>
      have hlt : ptr < ptr + (n + 1) * ps := by
        have : 0 < (n + 1) * ps := Nat.mul_pos (Nat.succ_pos n) hps
        omega
      have hend : ptr + (n + 1) * ps = (ptr + ps) + n * ps := by
        rw [Nat.succ_mul]
        omega
      simp only [touch_pages, hlt, if_true]
      rw [hend, ih f (ptr + ps) (by omega)]
      simp only [List.range_succ_eq_map, List.map_cons, List.map_map, Nat.zero_mul,
        Nat.add_zero]
      congr 2
      apply List.map_congr_left
      intro k _
      simp only [Function.comp, Nat.succ_eq_add_one, Nat.succ_mul]
      congr 1
      omega

theorem touch_pages_region (c : context_t) (fuel : Nat) (hps : 0 < c.page_size)
    (hdiv : c.page_size ∣ c.sz) (hfuel : c.sz / c.page_size < fuel) :
    touch_pages fuel c.data (c.data + c.sz) c.page_size
      = some ((List.range (c.sz / c.page_size)).map
          (fun k => Action.store (c.data + k * c.page_size) 0xff)) := by
  have h := touch_pages_eq c.page_size hps (c.sz / c.page_size) fuel c.data hfuel
  rwa [Nat.div_mul_cancel hdiv] at h

theorem child_loop_running (c : context_t) (fuel : Nat) (hps : 0 < c.page_size)
    (hdiv : c.page_size ∣ c.sz) (hfuel : c.sz / c.page_size < fuel) (pre : List CycleInput) :
    (∀ cy ∈ pre, cy.madvise_ok = true ∧ cycle_continues c cy = true) →
      child_loop c fuel pre
        = some ⟨none, (List.replicate pre.length (cycle_trace c)).flatten⟩ := by
  have ht := touch_pages_region c fuel hps hdiv hfuel
  induction pre with
  | nil => intro _; simp [child_loop]
  | cons cy pre ih =>
    intro hall
    have h1 := hall cy (List.mem_cons_self _ _)
    have h2 := ih (fun x hx => hall x (List.mem_cons_of_mem _ hx))
    have h3 : (cy.run_cond && (c.max_ops == 0 || decide (cy.counter < c.max_ops))) = true :=
      h1.2
    simp only [child_loop, h1.1, ht, h2, h3, Bool.not_true, if_true, List.length_cons,
      List.replicate_succ, List.flatten_cons, cycle_trace, Bool.false_eq_true, if_false,
      List.cons_append]

theorem child_loop_append (c : context_t) (fuel : Nat) (pre rest : List CycleInput)
    (t : List Action) :
    child_loop c fuel pre = some ⟨none, t⟩ →
      child_loop c fuel (pre ++ rest)
        = (child_loop c fuel rest).map (fun r => ⟨r.rc, t ++ r.trace⟩) := by
  induction pre generalizing t with
  | nil =>
    intro h
    simp only [child_loop, Option.some.injEq, ChildResult.mk.injEq, true_and] at h
    subst h
    simp only [List.nil_append]
    cases child_loop c fuel rest <;> simp
  | cons cy pre ih =>
    intro h
    simp only [child_loop, List.cons_append] at h ⊢
    cases hm : cy.madvise_ok with
    | false => simp [hm] at h
    | true =>
      simp only [hm, Bool.not_true, Bool.false_eq_true, if_false] at h ⊢
      cases htp : touch_pages fuel c.data (c.data + c.sz) c.page_size with
      | none => simp [htp] at h
      | some tp =>
        simp only [htp] at h ⊢
        by_cases hc :
            (cy.run_cond && (c.max_ops == 0 || decide (cy.counter < c.max_ops))) = true
        · simp only [hc, if_true] at h ⊢
          cases hl : child_loop c fuel pre with
          | none => simp [hl] at h
          | some r =>
            simp only [hl, Option.some.injEq, ChildResult.mk.injEq] at h
            obtain ⟨hrc, htr⟩ := h
            have hr : r = ⟨none, r.trace⟩ := by
              cases r
              simp_all
            rw [hr] at hl
            simp only [List.append_eq]
            rw [ih r.trace hl, ← htr]
            cases child_loop c fuel rest <;> simp
        · simp [hc] at h

/-! ## Lemmas on single iterations -/

theorem servicer_loop_cons_next (s : Servicer) (ev : IterInput) (rest : List IterInput)
    (c : Nat) (hflow : (servicer_body s ev c).flow = .next) :
    servicer_loop s (ev :: rest) c =
      if ev.run_cond && (s.max_ops == 0 || decide ((servicer_body s ev c).counter < s.max_ops))
      then
        ⟨(servicer_loop s rest (servicer_body s ev c).counter).counter,
          (servicer_body s ev c).trace
            ++ (servicer_loop s rest (servicer_body s ev c).counter).trace,
          (servicer_loop s rest (servicer_body s ev c).counter).exited⟩
      else
        ⟨(servicer_body s ev c).counter, (servicer_body s ev c).trace, true⟩ := by
  simp only [servicer_loop, hflow]

theorem servicer_loop_cons_brk (s : Servicer) (ev : IterInput) (rest : List IterInput)
    (c : Nat) (hflow : (servicer_body s ev c).flow = .brk) :
    servicer_loop s (ev :: rest) c
      = ⟨(servicer_body s ev c).counter, (servicer_body s ev c).trace, true⟩ := by
  simp only [servicer_loop, hflow]

theorem poll_stage_no_ioctl (fd : Int) (pre : List Action)
    (hpre : ∀ a ∈ pre, a = .poll fd 1000 ∨ a = .pr_fail_err .poll_userfaultfd) :
    pre.countP is_resolution_ioctl = 0 := by
  rw [List.countP_eq_zero]
  intro a ha
  rcases hpre a ha with h | h <;> simp [h, is_resolution_ioctl]

theorem setup_trace_no_teardown (h : Harness) (env : Env) (data mo : Nat) :
    (setup_trace h env data mo).filter is_teardown = [] := by
  simp [setup_trace, is_teardown]

theorem servicer_loop_no_teardown (s : Servicer) (script : List IterInput) (c : Nat) :
    (servicer_loop s script c).trace.filter is_teardown = [] := by
  rw [List.filter_eq_nil_iff]
  intro a ha
  have h1 := List.all_eq_true.1 (servicer_loop_trace_all s script c) a ha
  cases a <;> simp_all [is_servicer_action, is_loop_action, is_teardown]

theorem kill_and_wait_teardown (env : Env) :
    (kill_and_wait env).filter is_teardown
      = [.kill env.clone SIGKILL, .waitpid env.clone env.waitpid_ok] := by
  unfold kill_and_wait
  cases env.waitpid_ok <;> simp [is_teardown]

theorem unreg_teardown (env : Env) (fd : Int) (data sz zp : Nat) (rc : Int) :
    (unreg env fd data sz zp rc).2.filter is_teardown
      = [.ioctl_unregister fd data sz env.ioctl_unregister_ok, .munmap data sz, .free zp] := by
  unfold unreg
  cases env.ioctl_unregister_ok <;> simp [unmap_data, free_zeropage, is_teardown]

theorem servicer_loop_cons_same (s : Servicer) (ev : IterInput) (rest : List IterInput)
    (c : Nat) (hflow : (servicer_body s ev c).flow = .next)
    (hc : (servicer_body s ev c).counter = c) :
    servicer_loop s (ev :: rest) c =
      if ev.run_cond && (s.max_ops == 0 || decide (c < s.max_ops)) then
        ⟨(servicer_loop s rest c).counter,
          (servicer_body s ev c).trace ++ (servicer_loop s rest c).trace,
          (servicer_loop s rest c).exited⟩
      else
        ⟨c, (servicer_body s ev c).trace, true⟩ := by
  rw [servicer_loop_cons_next s ev rest c hflow, hc]

theorem servicer_body_of_do_read (s : Servicer) (ev : IterInput) (c : Nat) (f : Flow)
    (t : List Action) (last : Action)
    (hreach : reaches_read s ev = true) (hdr : do_read s ev c = ⟨f, c, t⟩)
    (hlast : t.getLast? = some last) (hio : t.countP is_resolution_ioctl = 0) :
    (servicer_body s ev c).flow = f ∧
      (servicer_body s ev c).counter = c ∧
      (servicer_body s ev c).trace.countP is_resolution_ioctl = 0 ∧
      (servicer_body s ev c).trace.getLast? = some last := by
  obtain ⟨pre, hpre, hb⟩ := servicer_body_of_reaches_read s ev c hreach
  rw [hdr] at hb
  have hne : t ≠ [] := by
    intro h0
    rw [h0] at hlast
    simp at hlast
  rw [hb]
  refine ⟨rfl, rfl, ?_, ?_⟩
  · simp [List.countP_append, poll_stage_no_ioctl s.fd pre hpre, hio]
  · simp only [List.getLast?_append_of_ne_nil _ hne, hlast]

theorem do_read_bad_message (s : Servicer) (ev : IterInput) (c : Nat) (m : uffd_msg)
    (hread : ev.read = .msg m)
    (hbad : m.event ≠ UFFD_EVENT_PAGEFAULT ∨ m.flags &&& UFFD_PAGEFAULT_FLAG_WRITE = 0) :
    do_read s ev c =
      ⟨.next, c,
        [.read s.fd,
          .pr_fail_err (if m.event ≠ UFFD_EVENT_PAGEFAULT then .msg_not_pagefault
            else .msg_not_write_fault)]⟩ := by
  unfold do_read
  simp only [hread]
  by_cases hev : m.event = UFFD_EVENT_PAGEFAULT
  · have hw : m.flags &&& UFFD_PAGEFAULT_FLAG_WRITE = 0 := by
      rcases hbad with h | h
      · exact absurd hev h
      · exact h
    simp [hev, hw]
  · simp [hev]

theorem do_read_error (s : Servicer) (ev : IterInput) (c errno : Nat)
    (hread : ev.read = .error errno) :
    do_read s ev c =
      if errno = EINTR then ⟨.next, c, [.read s.fd]⟩
      else ⟨if ev.run_read then .next else .brk, c,
        [.read s.fd, .pr_fail_err .read_userfaultfd]⟩ := by
  unfold do_read
  simp only [hread]
  by_cases he : errno = EINTR
  · simp [he]
  · cases hrr : ev.run_read <;> simp [he, hrr]

theorem do_read_trace_head (s : Servicer) (ev : IterInput) (c : Nat) :
    (do_read s ev c).trace.head? = some (.read s.fd) := by
  unfold do_read
  split
  · split_ifs <;> rfl
  · dsimp only
    split_ifs <;> rfl

/-! ## Lemmas on failed resolutions and on the ceiling -/

theorem handle_page_fault_ioctl_failed (fd : Int) (addr zp ds de ps rnd : Nat)
    (hin : ds ≤ addr ∧ addr < de) :
    handle_page_fault fd addr zp ds de ps rnd false =
      (-1,
        [if rnd &&& 1 ≠ 0 then .ioctl_copy fd addr zp ps 0 false
          else .ioctl_zeropage fd addr ps 0 false,
          .pr_fail_err (if rnd &&& 1 ≠ 0 then .copy_ioctl_failed
            else .zeropage_ioctl_failed)]) := by
  have hr : ¬ (addr < ds ∨ addr ≥ de) := by omega
  unfold handle_page_fault
  simp only [hr, if_false]
  split_ifs <;> simp_all

theorem do_read_ioctl_failed (s : Servicer) (ev : IterInput) (c addr : Nat)
    (hd : delivers_fault ev addr = true) (hin : s.data ≤ addr ∧ addr < s.data + s.sz)
    (hfail : ev.ioctl_ok = false) :
    do_read s ev c =
      ⟨.brk, c,
        [.read s.fd,
          if ev.rnd &&& 1 ≠ 0 then .ioctl_copy s.fd addr s.zero_page s.page_size 0 false
            else .ioctl_zeropage s.fd addr s.page_size 0 false,
          .pr_fail_err (if ev.rnd &&& 1 ≠ 0 then .copy_ioctl_failed
            else .zeropage_ioctl_failed)]⟩ := by
  unfold delivers_fault at hd
  unfold do_read
  cases hr : ev.read with
  | error e => simp [hr] at hd
  | msg m =>
    simp only [hr, Bool.and_eq_true, beq_iff_eq, bne_iff_ne] at hd
    obtain ⟨⟨h1, h2⟩, h3⟩ := hd
    subst h3
    have hh := handle_page_fault_ioctl_failed s.fd m.address s.zero_page s.data
      (s.data + s.sz) s.page_size ev.rnd hin
    simp only [h1, h2, hfail, hh, ne_eq, not_true_eq_false, if_false]
    simp

theorem oomable_teardown (h : Harness) (env : Env) (c mo zp data : Nat)
    (hz : env.posix_memalign = some zp) (hm : env.mmap = some data)
    (hr : registered env = true) (hcap : capable env = true) (hclone : 0 ≤ env.clone)
    (hex : (servicer_loop (servicer_of h env zp data mo) env.script c).exited = true) :
    (stress_userfaultfd_oomable h env c mo).rc
        = some (if env.ioctl_unregister_ok then EXIT_SUCCESS else EXIT_FAILURE) ∧
      (stress_userfaultfd_oomable h env c mo).counter
        = (servicer_loop (servicer_of h env zp data mo) env.script c).counter ∧
      (stress_userfaultfd_oomable h env c mo).trace.filter is_teardown =
        [.kill env.clone SIGKILL, .waitpid env.clone env.waitpid_ok,
          .ioctl_unregister env.userfaultfd data (region_sz h env) env.ioctl_unregister_ok,
          .munmap data (region_sz h env), .free zp] := by
  have h1 := setup_trace_no_teardown h env data mo
  have h2 := servicer_loop_no_teardown (servicer_of h env zp data mo) env.script c
  have h3 := kill_and_wait_teardown env
  have h4 := unreg_teardown env env.userfaultfd data (region_sz h env) zp EXIT_SUCCESS
  rw [oomable_of_setup h env c mo zp data hz hm hr hcap]
  simp only [not_lt.mpr hclone, if_false]
  simp [hex, List.filter_append, h1, h2, h3, h4, unreg_rc]

theorem servicer_body_of_do_read_last (s : Servicer) (ev : IterInput) (c : Nat) (f : Flow)
    (t : List Action) (last : Action)
    (hreach : reaches_read s ev = true) (hdr : do_read s ev c = ⟨f, c, t⟩)
    (hlast : t.getLast? = some last) :
    (servicer_body s ev c).flow = f ∧
      (servicer_body s ev c).counter = c ∧
      (servicer_body s ev c).trace.getLast? = some last := by
  obtain ⟨pre, -, hb⟩ := servicer_body_of_reaches_read s ev c hreach
  rw [hdr] at hb
  have hne : t ≠ [] := by
    intro h0
    rw [h0] at hlast
    simp at hlast
  rw [hb]
  refine ⟨rfl, rfl, ?_⟩
  simp only [List.getLast?_append_of_ne_nil _ hne, hlast]

theorem handle_page_fault_head (fd : Int) (addr zp ds de ps rnd : Nat) (ok : Bool)
    (hin : ds ≤ addr ∧ addr < de) :
    (handle_page_fault fd addr zp ds de ps rnd ok).2 =
      (if rnd % 2 = 1 then Action.ioctl_copy fd addr zp ps 0 ok
        else Action.ioctl_zeropage fd addr ps 0 ok)
        :: (if ok then []
            else [Action.pr_fail_err (if rnd % 2 = 1 then Msg.copy_ioctl_failed
              else Msg.zeropage_ioctl_failed)]) := by
  have hr : ¬ (addr < ds ∨ addr ≥ de) := by omega
  have hbit : rnd &&& 1 = rnd % 2 := Nat.and_one_is_mod rnd
  have hmod : rnd % 2 = 0 ∨ rnd % 2 = 1 := Nat.mod_two_eq_zero_or_one rnd
  unfold handle_page_fault
  rw [hbit]
  simp only [hr, if_false]
  rcases hmod with h0 | h1
  · cases ok <;> simp [h0]
  · cases ok <;> simp [h1]

theorem do_read_counter_le (s : Servicer) (ev : IterInput) (c : Nat) :
    (do_read s ev c).counter ≤ c + 1 := by
  have hm : (c + 1) % SIZE_MOD ≤ c + 1 := Nat.mod_le _ _
  unfold do_read
  split
  · split_ifs <;> simp
  · dsimp only
    split_ifs <;> simp [hm]

theorem servicer_body_counter_le (s : Servicer) (ev : IterInput) (c : Nat) :
    (servicer_body s ev c).counter ≤ c + 1 := by
  have hr := do_read_counter_le s ev c
  unfold servicer_body
  cases ev.poll <;> dsimp only <;> split_ifs <;> simp [hr]

theorem do_read_counter_blind (s : Servicer) (ev : IterInput) (c c2 : Nat) :
    (do_read s ev c).flow = (do_read s ev c2).flow ∧
      (do_read s ev c).trace = (do_read s ev c2).trace := by
  unfold do_read
  split
  · split_ifs <;> simp
  · dsimp only
    split_ifs <;> simp

theorem servicer_body_counter_blind (s : Servicer) (ev : IterInput) (c c2 : Nat) :
    (servicer_body s ev c).flow = (servicer_body s ev c2).flow ∧
      (servicer_body s ev c).trace = (servicer_body s ev c2).trace := by
  obtain ⟨h1, h2⟩ := do_read_counter_blind s ev c c2
  unfold servicer_body
  cases ev.poll <;> dsimp only <;> split_ifs <;> simp [h1, h2]

theorem servicer_loop_ceiling (s : Servicer) (script : List IterInput) :
    ∀ c, c < s.max_ops →
      (servicer_loop s script c).counter ≤ s.max_ops ∧
        ((servicer_loop s script c).counter = s.max_ops →
          (servicer_loop s script c).exited = true) := by
  induction script with
  | nil =>
    intro c hc
    simp only [servicer_loop]
    exact ⟨le_of_lt hc, fun h => absurd h (ne_of_lt hc)⟩
  | cons ev rest ih =>
    intro c hc
    have hle := servicer_body_counter_le s ev c
    have hb : (servicer_body s ev c).counter ≤ s.max_ops := by omega
    simp only [servicer_loop]
    split
    · exact ⟨hb, fun _ => rfl⟩
    · split_ifs with hcond
      · have hlt : (servicer_body s ev c).counter < s.max_ops := by
          simp only [Bool.and_eq_true, Bool.or_eq_true, beq_iff_eq, decide_eq_true_eq] at hcond
          rcases hcond.2 with h0 | h1
          · omega
          · exact h1
        exact ih _ hlt
      · exact ⟨hb, fun _ => rfl⟩

theorem servicer_loop_exited_append (s : Servicer) (pre rest : List IterInput) :
    ∀ c, (servicer_loop s pre c).exited = true →
      servicer_loop s (pre ++ rest) c = servicer_loop s pre c := by
  induction pre with
  | nil =>
    intro c h
    simp [servicer_loop] at h
  | cons ev pre ih =>
    intro c h
    simp only [servicer_loop, List.cons_append] at h ⊢
    split at h
    · rfl
    · split_ifs at h ⊢ with hcond
      · simp only [List.append_eq, ih _ h]
      · rfl

theorem servicer_loop_unbounded (s : Servicer) (hmo : s.max_ops = 0)
    (script : List IterInput) :
    ∀ c c2, (servicer_loop s script c).exited = (servicer_loop s script c2).exited ∧
      (servicer_loop s script c).trace = (servicer_loop s script c2).trace := by
  induction script with
  | nil => intro c c2; simp [servicer_loop]
  | cons ev rest ih =>
    intro c c2
    obtain ⟨h1, h2⟩ := servicer_body_counter_blind s ev c c2
    simp only [servicer_loop, hmo, beq_self_eq_true, Bool.true_or, Bool.and_true]
    rw [← h1, ← h2]
    split
    · exact ⟨rfl, rfl⟩
    · split_ifs
      · obtain ⟨i1, i2⟩ := ih (servicer_body s ev c).counter (servicer_body s ev c2).counter
        exact ⟨i1, by rw [i2]⟩
      · exact ⟨rfl, rfl⟩

theorem wexitstatus_of_small (status : Nat) (hs : status < 0x100) : WEXITSTATUS status = 0 := by
  unfold WEXITSTATUS
  have h1 : status &&& 0xff00 ≤ status := Nat.and_le_left
  rw [Nat.shiftRight_eq_div_pow]
  exact Nat.div_eq_of_lt (by omega)

theorem page_end_in_region (addr ds sz ps : Nat) (hbase : ps ∣ ds) (hlen : ps ∣ sz)
    (haddr : ps ∣ addr) (hin : addr < ds + sz) : addr + ps ≤ ds + sz := by
  obtain ⟨a, ha⟩ := hbase
  obtain ⟨n, hn⟩ := hlen
  obtain ⟨k, hk⟩ := haddr
  subst ha hn hk
  rw [← Nat.mul_add] at hin ⊢
  have hlt : k < a + n := Nat.lt_of_mul_lt_mul_left hin
  calc ps * k + ps = ps * (k + 1) := by rw [Nat.mul_add, Nat.mul_one]
    _ ≤ ps * (a + n) := Nat.mul_le_mul_left ps hlt

/-! ## Lemmas on the option table, the random page and the sync passes -/

theorem dccp_opts_find_eq_none (optarg : String) (tbl : List dccp_opts_t) :
    dccp_opts_find optarg tbl = none ↔ optarg ∉ tbl.map (fun e => e.optname) := by
  induction tbl with
  | nil => simp [dccp_opts_find]
  | cons e rest ih =>
    by_cases he : optarg = e.optname
    · simp [dccp_opts_find, he]
    · simp [dccp_opts_find, he, ih]

theorem sync_chunk_bounds (r : Nat) :
    KB ∣ sync_chunk r ∧ KB ≤ sync_chunk r ∧ sync_chunk r ≤ 128 * KB := by
  have hle : r &&& 0x1fc00 ≤ 0x1fc00 := Nat.and_le_right
  have hmod : (r &&& 0x1fc00) % 2 ^ 10 = 0 := by
    rw [← Nat.and_pow_two_sub_one_eq_mod, Nat.and_assoc]
    have h0 : (0x1fc00 : Nat) &&& (2 ^ 10 - 1) = 0 := by decide
    rw [h0]
    exact Nat.and_zero r
  unfold sync_chunk KB
  refine ⟨?_, by omega, by omega⟩
  apply Nat.dvd_of_mod_eq_zero
  have h1 : (2 : Nat) ^ 10 = 1024 := by decide
  rw [h1] at hmod
  omega

theorem sync_pass_terminates (rnd : Nat → Nat) (bytes : Nat) ( backward : Bool) :
    ∀ fuel i offset, (bytes - offset + 1023) / 1024 < fuel →
      ∃ calls, sync_pass rnd bytes backward fuel i offset = some calls ∧
        calls.length ≤ (bytes - offset + 1023) / 1024 ∧
        (offset < bytes → 0 < calls.length) ∧
        (∀ cl ∈ calls, offset ≤ cl.offset) ∧
        (calls.map (fun cl => cl.offset)).Pairwise (fun a b => a < b) := by
  intro fuel
  induction fuel with
  | zero => intro i offset hf; omega
  | succ fuel ih =>
    intro i offset hf
    by_cases hlt : offset < bytes
    · obtain ⟨-, hlo, -⟩ := sync_chunk_bounds (rnd i)
      unfold KB at hlo
      obtain ⟨calls, hc, hlen, -, hge, hpw⟩ :=
        ih (i + 1) (offset + sync_chunk (rnd i)) (by omega)
      refine ⟨⟨offset, if backward then bytes - offset else offset, sync_chunk (rnd i)⟩ :: calls,
        ?_, ?_, ?_, ?_, ?_⟩
      · simp [sync_pass, hlt, hc]
      · simp only [List.length_cons]
        omega
      · intro _
        simp
      · intro cl hcl
        rcases List.mem_cons.1 hcl with h1 | h1
        · rw [h1]
        · have := hge cl h1
          omega
      · simp only [List.map_cons, List.pairwise_cons]
        refine ⟨?_, hpw⟩
        intro b hb
        obtain ⟨cl, hcl, rfl⟩ := List.mem_map.1 hb
        have := hge cl hcl
        omega
    · exact ⟨[], by simp [sync_pass, hlt], by simp, fun h => absurd h hlt, by simp, by simp⟩

/-! ## The claims -/

/-- C1: in the servicer loop the counter is incremented by exactly one for each
fault that `handle_page_fault` resolves (it returns 0 exactly when it leaves one
successful resolution ioctl in the trace) and by nothing else: after any script
of poll/read outcomes and notifications, the counter equals its initial value
plus the number of resolved faults, modulo 2^64. -/
theorem C1_counter_is_initial_plus_resolved (s : Servicer) (script : List IterInput)
    (c0 : Nat) (h0 : c0 < SIZE_MOD) :
    (servicer_loop s script c0).counter
        = (c0 + resolved (servicer_loop s script c0).trace) % SIZE_MOD ∧
      (∀ (fd : Int) (addr zp ds de ps rnd : Nat) (ok : Bool),
        resolved (handle_page_fault fd addr zp ds de ps rnd ok).2
          = if (handle_page_fault fd addr zp ds de ps rnd ok).1 = 0 then 1 else 0) := by
  refine ⟨servicer_loop_counter s script c0 h0, ?_⟩
  intro fd addr zp ds de ps rnd ok
  rcases handle_page_fault_resolved fd addr zp ds de ps rnd ok with ⟨h1, h2⟩ | ⟨h1, h2⟩
  · simp [h1, h2]
  · simp [h1, h2]

/-- Witness of C1: a loop started one below the top of the counter range. -/
theorem C1_counter_is_initial_plus_resolved_witness :
    2 ^ 64 - 1 < SIZE_MOD ∧
      (servicer_loop sample_servicer sample_env.script (2 ^ 64 - 1)).counter
        = (2 ^ 64 - 1
            + resolved (servicer_loop sample_servicer sample_env.script (2 ^ 64 - 1)).trace)
          % SIZE_MOD :=
  ⟨by decide,
    (C1_counter_is_initial_plus_resolved sample_servicer sample_env.script (2 ^ 64 - 1)
      (by decide)).1⟩

/-- C2: for an address below `data_start` or at or above `data_end`,
`handle_page_fault` returns -1 and issues no resolution ioctl (it only reports
the failure); an iteration of the servicer loop that reads such a notification
leaves the loop at once: the remaining script is not consumed, that iteration
made the only `read`, no resolution ioctl was issued, the report is the last
action, and the counter is unchanged. -/
theorem C2_out_of_range_fault_aborts_loop :
    (∀ (fd : Int) (addr zero_page data_start data_end page_size rnd : Nat) (ioctl_ok : Bool),
      addr < data_start ∨ addr ≥ data_end →
        handle_page_fault fd addr zero_page data_start data_end page_size rnd ioctl_ok
          = (-1, [.pr_fail_err .address_out_of_range])) ∧
    (∀ (s : Servicer) (ev : IterInput) (rest : List IterInput) (c addr : Nat),
      reaches_read s ev = true → delivers_fault ev addr = true →
      addr < s.data ∨ addr ≥ s.data + s.sz →
        (servicer_loop s (ev :: rest) c).exited = true ∧
        (servicer_loop s (ev :: rest) c).counter = c ∧
        servicer_loop s (ev :: rest) c = servicer_loop s [ev] c ∧
        (servicer_loop s (ev :: rest) c).trace.filter is_read = [.read s.fd] ∧
        (servicer_loop s (ev :: rest) c).trace.countP is_resolution_ioctl = 0 ∧
        (servicer_loop s (ev :: rest) c).trace.getLast?
          = some (.pr_fail_err .address_out_of_range)) := by
  constructor
  · intro fd addr zp ds de ps rnd ok hoor
    simp [handle_page_fault, hoor]
  · intro s ev rest c addr hr hd hoor
    obtain ⟨pre1, hpre, hl⟩ := servicer_loop_out_of_range s ev c addr hr hd hoor
    have hl1 := hl []
    have hl := hl rest
    have hf : pre1.filter is_read = [] := by
      rw [List.filter_eq_nil_iff]
      intro a ha
      rcases hpre a ha with h | h <;> simp [h, is_read]
    have hc : pre1.countP is_resolution_ioctl = 0 := by
      rw [List.countP_eq_zero]
      intro a ha
      rcases hpre a ha with h | h <;> simp [h, is_resolution_ioctl]
    rw [hl, hl1]
    refine ⟨rfl, rfl, rfl, ?_, ?_, ?_⟩
    · simp [List.filter_append, hf, List.filter_cons, is_read]
    · simp [List.countP_append, hc, List.countP_cons, is_resolution_ioctl]
    · simp [List.getLast?_append]

/-- Witness of C2: the third notification of the sample run, at `0x20000`,
outside the region `[0x10000, 0x14000)`. -/
theorem C2_out_of_range_fault_aborts_loop_witness :
    (handle_page_fault 5 0x20000 0x1000 0x10000 0x14000 4096 3 true
        = (-1, [.pr_fail_err .address_out_of_range])) ∧
      ((servicer_loop sample_servicer
            (sample_fault 0x20000 3 :: [sample_fault 0x12000 3]) 2).exited = true ∧
        (servicer_loop sample_servicer
            (sample_fault 0x20000 3 :: [sample_fault 0x12000 3]) 2).counter = 2 ∧
        servicer_loop sample_servicer (sample_fault 0x20000 3 :: [sample_fault 0x12000 3]) 2
          = servicer_loop sample_servicer [sample_fault 0x20000 3] 2 ∧
        (servicer_loop sample_servicer
            (sample_fault 0x20000 3 :: [sample_fault 0x12000 3]) 2).trace.filter is_read
          = [.read sample_servicer.fd] ∧
        (servicer_loop sample_servicer
            (sample_fault 0x20000 3 :: [sample_fault 0x12000 3]) 2).trace.countP
              is_resolution_ioctl = 0 ∧
        (servicer_loop sample_servicer
            (sample_fault 0x20000 3 :: [sample_fault 0x12000 3]) 2).trace.getLast?
          = some (.pr_fail_err .address_out_of_range)) :=
  ⟨C2_out_of_range_fault_aborts_loop.1 5 0x20000 0x1000 0x10000 0x14000 4096 3 true
      (by decide),
    C2_out_of_range_fault_aborts_loop.2 sample_servicer (sample_fault 0x20000 3)
      [sample_fault 0x12000 3] 2 0x20000 (by decide) (by decide) (by decide)⟩

/-- C3, as stated, fails: in the sample run the third notification carries an
address outside the region, the loop is left on it (the report is the last
action of the loop and the fourth notification is never handled), the
unregistration succeeds, and the function returns `EXIT_SUCCESS`, which the
forked child hands to `_exit`. -/
theorem C3_abort_returns_success_counterexample :
    (servicer_loop sample_servicer sample_env.script 0).trace.getLast?
        = some (.pr_fail_err .address_out_of_range) ∧
      (servicer_loop sample_servicer sample_env.script 0).exited = true ∧
      sample_env.ioctl_unregister_ok = true ∧
      (stress_userfaultfd_oomable sample_harness sample_env 0 0).rc = some EXIT_SUCCESS ∧
      (stress_userfaultfd_oomable sample_harness sample_env 0 0).counter = 2 ∧
      (stress_userfaultfd sample_harness sample_child sample_env 0 0).1
        = .exits (some EXIT_SUCCESS) := by
  decide

/-- C3, amended: when the servicer loop is left because a notification carries
an address outside the registered range, the failure is reported, the teardown
runs (kill and wait for the generator, unregistration, munmap, free) and the
function returns; its return code is decided by the unregistration alone,
`EXIT_SUCCESS` when the unregistration succeeds and `EXIT_FAILURE` when it
fails, and the counter is the one reached before that notification. -/
theorem C3_abort_return_code (h : Harness) (env : Env) (c mo zp data addr : Nat)
    (pre rest : List IterInput) (ev : IterInput)
    (hz : env.posix_memalign = some zp) (hm : env.mmap = some data)
    (hr : registered env = true) (hcap : capable env = true) (hclone : 0 ≤ env.clone)
    (hscript : env.script = pre ++ ev :: rest)
    (hpre : (servicer_loop (servicer_of h env zp data mo) pre c).exited = false)
    (hread : reaches_read (servicer_of h env zp data mo) ev = true)
    (hd : delivers_fault ev addr = true)
    (hoor : addr < data ∨ addr ≥ data + region_sz h env) :
    (stress_userfaultfd_oomable h env c mo).rc
        = some (if env.ioctl_unregister_ok then EXIT_SUCCESS else EXIT_FAILURE) ∧
      .pr_fail_err .address_out_of_range ∈ (stress_userfaultfd_oomable h env c mo).trace ∧
      (stress_userfaultfd_oomable h env c mo).counter
        = (servicer_loop (servicer_of h env zp data mo) pre c).counter ∧
      (stress_userfaultfd_oomable h env c mo).trace.filter is_teardown =
        [.kill env.clone SIGKILL, .waitpid env.clone env.waitpid_ok,
          .ioctl_unregister env.userfaultfd data (region_sz h env) env.ioctl_unregister_ok,
          .munmap data (region_sz h env), .free zp] := by
  obtain ⟨p, -, hl⟩ := servicer_loop_out_of_range (servicer_of h env zp data mo) ev
    (servicer_loop (servicer_of h env zp data mo) pre c).counter addr hread hd hoor
  have hloop := servicer_loop_append (servicer_of h env zp data mo) pre (ev :: rest) c hpre
  rw [hl rest, ← hscript] at hloop
  have hex : (servicer_loop (servicer_of h env zp data mo) env.script c).exited = true := by
    rw [hloop]
  obtain ⟨-, -, t3⟩ := oomable_teardown h env c mo zp data hz hm hr hcap hclone hex
  refine ⟨?_, ?_, ?_, t3⟩
  · rw [oomable_of_setup h env c mo zp data hz hm hr hcap]
    simp [not_lt.mpr hclone, hloop, unreg_rc]
  · rw [oomable_of_setup h env c mo zp data hz hm hr hcap]
    simp [not_lt.mpr hclone, hloop]
  · rw [oomable_of_setup h env c mo zp data hz hm hr hcap]
    simp [not_lt.mpr hclone, hloop]

/-- Witness of the amended C3: the sample run, whose first two notifications
are resolved and whose third is out of range. -/
theorem C3_abort_return_code_witness :
    (stress_userfaultfd_oomable sample_harness sample_env 0 0).rc
        = some (if sample_env.ioctl_unregister_ok then EXIT_SUCCESS else EXIT_FAILURE) ∧
      .pr_fail_err .address_out_of_range
        ∈ (stress_userfaultfd_oomable sample_harness sample_env 0 0).trace ∧
      (stress_userfaultfd_oomable sample_harness sample_env 0 0).counter
        = (servicer_loop (servicer_of sample_harness sample_env 0x1000 0x10000 0)
            [sample_fault 0x10000 1, sample_fault 0x11000 2] 0).counter ∧
      (stress_userfaultfd_oomable sample_harness sample_env 0 0).trace.filter is_teardown =
        [.kill sample_env.clone SIGKILL, .waitpid sample_env.clone sample_env.waitpid_ok,
          .ioctl_unregister sample_env.userfaultfd 0x10000
            (region_sz sample_harness sample_env) sample_env.ioctl_unregister_ok,
          .munmap 0x10000 (region_sz sample_harness sample_env), .free 0x1000] :=
  C3_abort_return_code sample_harness sample_env 0 0 0x1000 0x10000 0x20000
    [sample_fault 0x10000 1, sample_fault 0x11000 2] [sample_fault 0x12000 3]
    (sample_fault 0x20000 3) rfl rfl (by decide) (by decide) (by decide) rfl (by decide)
    (by decide) (by decide) (by decide)

/-- C4: when `fork` and the first `waitpid` succeed, the result of
`stress_userfaultfd` is a function of the wait status: a child killed by
`SIGKILL` gives `EXIT_NO_RESOURCE`, a child killed by any other signal gives
`EXIT_FAILURE`, a child that exited normally gives its exit code. -/
theorem C4_result_from_wait_status (h : Harness) (sup : SupEnv) (env : Env) (c mo status : Nat)
    (hf : 0 < sup.fork) (hw : sup.waitpid = .ok status) :
    (WIFSIGNALED status = true → WTERMSIG status = SIGKILL →
        (stress_userfaultfd h sup env c mo).1 = .returned h.EXIT_NO_RESOURCE) ∧
      (WIFSIGNALED status = true → WTERMSIG status ≠ SIGKILL →
        (stress_userfaultfd h sup env c mo).1 = .returned EXIT_FAILURE) ∧
      (WIFEXITED status = true →
        (stress_userfaultfd h sup env c mo).1 = .returned (WEXITSTATUS status : Nat)) := by
  have hf' : ¬ sup.fork < 0 := not_lt.mpr (le_of_lt hf)
  refine ⟨?_, ?_, ?_⟩
  · intro hs hk
    simp [stress_userfaultfd, hf, hf', hw, hs, hk]
  · intro hs hk
    simp [stress_userfaultfd, hf, hf', hw, hs, hk]
  · intro he
    have hs := not_signaled_of_exited status he
    simp [stress_userfaultfd, hf, hf', hw, hs]

/-- Witness of C4: a child killed by `SIGKILL` (status 9), a child killed by
`SIGTERM` (status 15) and a child that exited with code 3 (status `0x300`). -/
theorem C4_result_from_wait_status_witness :
    (stress_userfaultfd sample_harness ⟨100, 0, .ok 9, 0⟩ sample_env 0 0).1
        = .returned sample_harness.EXIT_NO_RESOURCE ∧
      (stress_userfaultfd sample_harness ⟨100, 0, .ok 15, 0⟩ sample_env 0 0).1
        = .returned EXIT_FAILURE ∧
      (stress_userfaultfd sample_harness ⟨100, 0, .ok 0x300, 0⟩ sample_env 0 0).1
        = .returned (WEXITSTATUS 0x300 : Nat) :=
  ⟨(C4_result_from_wait_status sample_harness ⟨100, 0, .ok 9, 0⟩ sample_env 0 0 9
      (by decide) rfl).1 (by decide) (by decide),
    (C4_result_from_wait_status sample_harness ⟨100, 0, .ok 15, 0⟩ sample_env 0 0 15
      (by decide) rfl).2.1 (by decide) (by decide),
    (C4_result_from_wait_status sample_harness ⟨100, 0, .ok 0x300, 0⟩ sample_env 0 0 0x300
      (by decide) rfl).2.2 (by decide)⟩

/-- C5: when `fork` fails, `stress_userfaultfd` waits for no child; it returns
`EXIT_NO_RESOURCE` when errno is `EAGAIN` and `EXIT_FAILURE` for every other
errno. -/
theorem C5_fork_failure (h : Harness) (sup : SupEnv) (env : Env) (c mo : Nat)
    (hf : sup.fork < 0) :
    (stress_userfaultfd h sup env c mo).1
        = .returned (if sup.errno_fork = EAGAIN then h.EXIT_NO_RESOURCE else EXIT_FAILURE) ∧
      (stress_userfaultfd h sup env c mo).2.any is_waitpid = false := by
  by_cases he : sup.errno_fork = EAGAIN
  · simp [stress_userfaultfd, hf, he, is_waitpid]
  · simp [stress_userfaultfd, hf, he, is_waitpid]

/-- Witness of C5: a `fork` that fails with `ENOMEM`. -/
theorem C5_fork_failure_witness :
    (stress_userfaultfd sample_harness ⟨-1, ENOMEM, .ok 0, 0⟩ sample_env 0 0).1
        = .returned (if (⟨-1, ENOMEM, .ok 0, 0⟩ : SupEnv).errno_fork = EAGAIN
            then sample_harness.EXIT_NO_RESOURCE else EXIT_FAILURE) ∧
      (stress_userfaultfd sample_harness ⟨-1, ENOMEM, .ok 0, 0⟩ sample_env 0 0).2.any
        is_waitpid = false :=
  C5_fork_failure sample_harness ⟨-1, ENOMEM, .ok 0, 0⟩ sample_env 0 0 (by decide)

/-- C6: if the zero-page allocation or the region mapping fails,
`stress_userfaultfd_oomable` returns `EXIT_NO_RESOURCE`; the fault device is
never opened, no child is spawned and the counter is unchanged. -/
theorem C6_allocation_failure (h : Harness) (env : Env) (c mo : Nat)
    (hfail : env.posix_memalign = none ∨ env.mmap = none) :
    (stress_userfaultfd_oomable h env c mo).rc = some h.EXIT_NO_RESOURCE ∧
      (stress_userfaultfd_oomable h env c mo).trace.any is_open = false ∧
      (stress_userfaultfd_oomable h env c mo).trace.any is_clone = false ∧
      (stress_userfaultfd_oomable h env c mo).counter = c := by
  unfold stress_userfaultfd_oomable
  cases hz : env.posix_memalign with
  | none => simp [is_open, is_clone]
  | some zp =>
    cases hm : env.mmap with
    | none => simp [is_open, is_clone, free_zeropage]
    | some data =>
      rcases hfail with hf | hf
      · rw [hz] at hf
        exact Option.noConfusion hf
      · rw [hm] at hf
        exact Option.noConfusion hf

/-- Witness of C6: the sample run with a failing `mmap`. -/
theorem C6_allocation_failure_witness :
    (stress_userfaultfd_oomable sample_harness { sample_env with mmap := none } 7 0).rc
        = some sample_harness.EXIT_NO_RESOURCE ∧
      (stress_userfaultfd_oomable sample_harness
        { sample_env with mmap := none } 7 0).trace.any is_open = false ∧
      (stress_userfaultfd_oomable sample_harness
        { sample_env with mmap := none } 7 0).trace.any is_clone = false ∧
      (stress_userfaultfd_oomable sample_harness { sample_env with mmap := none } 7 0).counter
        = 7 :=
  C6_allocation_failure sample_harness { sample_env with mmap := none } 7 0 (Or.inr rfl)

/-- C7: once the registration has succeeded, `stress_userfaultfd_oomable`
spawns the generator if and only if the capability mask has both the
`_UFFDIO_COPY` bit and the `_UFFDIO_ZEROPAGE` bit; when a bit is missing it
returns `EXIT_FAILURE`, spawns no generator, does not enter the servicer loop
(no loop call, and the same outcome whatever script the loop would have met)
and leaves the counter alone. -/
theorem C7_spawn_iff_both_capabilities (h : Harness) (env : Env) (c mo : Nat)
    (hr : registered env = true) :
    ((stress_userfaultfd_oomable h env c mo).trace.any is_clone = true ↔
        (env.ioctls.testBit _UFFDIO_COPY = true ∧
          env.ioctls.testBit _UFFDIO_ZEROPAGE = true)) ∧
      (¬ (env.ioctls.testBit _UFFDIO_COPY = true ∧
            env.ioctls.testBit _UFFDIO_ZEROPAGE = true) →
        (stress_userfaultfd_oomable h env c mo).rc = some EXIT_FAILURE ∧
          (stress_userfaultfd_oomable h env c mo).trace.any is_clone = false ∧
          (stress_userfaultfd_oomable h env c mo).trace.any is_loop_action = false ∧
          (∀ script : List IterInput,
            stress_userfaultfd_oomable h { env with script := script } c mo
              = stress_userfaultfd_oomable h env c mo) ∧
          (stress_userfaultfd_oomable h env c mo).counter = c) := by
  have hcap_iff : capable env = true ↔
      (env.ioctls.testBit _UFFDIO_COPY = true ∧
        env.ioctls.testBit _UFFDIO_ZEROPAGE = true) := by
    simp [capable]
  have hmiss : capable env = false →
      (stress_userfaultfd_oomable h env c mo).rc = some EXIT_FAILURE ∧
        (stress_userfaultfd_oomable h env c mo).trace.any is_clone = false ∧
        (stress_userfaultfd_oomable h env c mo).trace.any is_loop_action = false ∧
        (∀ script : List IterInput,
          stress_userfaultfd_oomable h { env with script := script } c mo
            = stress_userfaultfd_oomable h env c mo) ∧
        (stress_userfaultfd_oomable h env c mo).counter = c := by
    intro hc
    obtain ⟨-, h2, h3, h4, -⟩ := oomable_of_failed_setup h env c mo (Or.inr hc)
    refine ⟨?_, h3, h4, oomable_failed_setup_any_script h env c mo (Or.inr hc), h2⟩
    obtain ⟨⟨zp, hz⟩, ⟨data, hm⟩, hfd, hapi, hver, hreg⟩ := (registered_iff env).1 hr
    have hfd' : ¬ env.userfaultfd < 0 := not_lt.mpr hfd
    have hnot : ¬ (env.ioctls &&& (1 <<< _UFFDIO_COPY) = 1 <<< _UFFDIO_COPY ∧
        env.ioctls &&& (1 <<< _UFFDIO_ZEROPAGE) = 1 <<< _UFFDIO_ZEROPAGE) := by
      rw [← capable_iff, hc]
      exact Bool.noConfusion
    unfold stress_userfaultfd_oomable
    simp only [hz, hm, hfd', hapi, hver, hreg, if_false, Bool.not_true, ne_eq,
      not_true_eq_false, Bool.false_eq_true]
    by_cases h5 : env.ioctls &&& (1 <<< _UFFDIO_COPY) = 1 <<< _UFFDIO_COPY
    · have h6 : ¬ env.ioctls &&& (1 <<< _UFFDIO_ZEROPAGE) = 1 <<< _UFFDIO_ZEROPAGE :=
        fun h6 => hnot ⟨h5, h6⟩
      simp [h5, h6]
    · simp [h5]
  constructor
  · constructor
    · intro hcl
      rw [← hcap_iff]
      by_contra hc
      have hc' : capable env = false := by simpa using hc
      rw [(hmiss hc').2.1] at hcl
      exact Bool.noConfusion hcl
    · intro hb
      exact oomable_clone_of_setup h env c mo hr (hcap_iff.2 hb)
  · intro hb
    apply hmiss
    rw [← hcap_iff] at hb
    simpa using hb

/-- Witness of C7: the sample run with a capability mask that lacks the
zeropage bit; with the full mask of the sample run the generator is spawned. -/
theorem C7_spawn_iff_both_capabilities_witness :
    ((stress_userfaultfd_oomable sample_harness { sample_env with ioctls := 0xc } 0 0).rc
        = some EXIT_FAILURE ∧
      (stress_userfaultfd_oomable sample_harness
        { sample_env with ioctls := 0xc } 0 0).trace.any is_clone = false ∧
      (stress_userfaultfd_oomable sample_harness
        { sample_env with ioctls := 0xc } 0 0).trace.any is_loop_action = false ∧
      stress_userfaultfd_oomable sample_harness
          { { sample_env with ioctls := 0xc } with script := [] } 0 0
        = stress_userfaultfd_oomable sample_harness { sample_env with ioctls := 0xc } 0 0 ∧
      (stress_userfaultfd_oomable sample_harness { sample_env with ioctls := 0xc } 0 0).counter
        = 0) ∧
      (stress_userfaultfd_oomable sample_harness sample_env 0 0).trace.any is_clone = true :=
  have w := (C7_spawn_iff_both_capabilities sample_harness { sample_env with ioctls := 0xc }
    0 0 (by decide)).2 (by decide)
  ⟨⟨w.1, w.2.1, w.2.2.1, w.2.2.2.1 [], w.2.2.2.2⟩,
    (C7_spawn_iff_both_capabilities sample_harness sample_env 0 0 (by decide)).1.2
      ⟨by decide, by decide⟩⟩

/-- C8: every setup error of `stress_userfaultfd_oomable` (failed zero-page
allocation, failed mmap, failed open of the device, failed `UFFDIO_API`, API
version mismatch, failed `UFFDIO_REGISTER`, missing copy or zeropage
capability) makes the function return before a child is spawned: `clone` is
not called, the servicer loop runs no iteration (it makes no call, and the
outcome is the same whatever script the loop would have met) and the counter
is unchanged. -/
theorem C8_setup_error_spawns_nothing (h : Harness) (env : Env) (c mo : Nat)
    (herr : env.posix_memalign = none ∨ env.mmap = none ∨ env.userfaultfd < 0 ∨
      env.ioctl_api_ok = false ∨ env.api ≠ UFFD_API ∨ env.ioctl_register_ok = false ∨
      env.ioctls.testBit _UFFDIO_COPY = false ∨ env.ioctls.testBit _UFFDIO_ZEROPAGE = false) :
    (stress_userfaultfd_oomable h env c mo).rc.isSome = true ∧
      (stress_userfaultfd_oomable h env c mo).trace.any is_clone = false ∧
      (stress_userfaultfd_oomable h env c mo).trace.any is_loop_action = false ∧
      (∀ script : List IterInput,
        stress_userfaultfd_oomable h { env with script := script } c mo
          = stress_userfaultfd_oomable h env c mo) ∧
      (stress_userfaultfd_oomable h env c mo).counter = c := by
  have hbad : registered env = false ∨ capable env = false := by
    rcases herr with e | e | e | e | e | e | e | e
    · left; simp [registered, e]
    · left; simp [registered, e]
    · left; simp [registered, not_le.mpr e]
    · left; simp [registered, e]
    · left; simp [registered, e]
    · left; simp [registered, e]
    · right; simp [capable, e]
    · right; simp [capable, e]
  obtain ⟨h1, h2, h3, h4, -⟩ := oomable_of_failed_setup h env c mo hbad
  exact ⟨h1, h3, h4, oomable_failed_setup_any_script h env c mo hbad, h2⟩

/-- Witness of C8: the sample run with an API version mismatch. -/
theorem C8_setup_error_spawns_nothing_witness :
    (stress_userfaultfd_oomable sample_harness { sample_env with api := 0xAB } 5 0).rc.isSome
        = true ∧
      (stress_userfaultfd_oomable sample_harness
        { sample_env with api := 0xAB } 5 0).trace.any is_clone = false ∧
      (stress_userfaultfd_oomable sample_harness
        { sample_env with api := 0xAB } 5 0).trace.any is_loop_action = false ∧
      stress_userfaultfd_oomable sample_harness
          { { sample_env with api := 0xAB } with script := [] } 5 0
        = stress_userfaultfd_oomable sample_harness { sample_env with api := 0xAB } 5 0 ∧
      (stress_userfaultfd_oomable sample_harness { sample_env with api := 0xAB } 5 0).counter
        = 5 :=
  have w := C8_setup_error_spawns_nothing sample_harness { sample_env with api := 0xAB } 5 0
    (Or.inr (Or.inr (Or.inr (Or.inr (Or.inl (by decide))))))
  ⟨w.1, w.2.1, w.2.2.1, w.2.2.2.1 [], w.2.2.2.2⟩

/-- C9: when the registration reports the copy ioctl unsupported,
`stress_userfaultfd_oomable` returns `EXIT_FAILURE`, and before it returns the
region is unmapped and the zero page is freed: these two releases are the last
calls, after the report, and nothing else follows the registration. -/
theorem C9_copy_unsupported_releases_all (h : Harness) (env : Env) (c mo zp data : Nat)
    (hz : env.posix_memalign = some zp) (hm : env.mmap = some data)
    (hr : registered env = true) (hcopy : env.ioctls.testBit _UFFDIO_COPY = false) :
    (stress_userfaultfd_oomable h env c mo).rc = some EXIT_FAILURE ∧
      (stress_userfaultfd_oomable h env c mo).trace =
        [.posix_memalign env.page_size env.page_size true,
          .mmap (region_sz h env) true,
          .userfaultfd 0 env.userfaultfd,
          .set_nonblock env.userfaultfd env.set_nonblock_ok,
          .ioctl_api env.userfaultfd UFFD_API 0 true,
          .ioctl_register env.userfaultfd data (region_sz h env)
            UFFDIO_REGISTER_MODE_MISSING true,
          .pr_err .no_copy_support,
          .munmap data (region_sz h env),
          .free zp] := by
  rw [oomable_copy_unsupported h env c mo zp data hz hm hr hcopy]
  exact ⟨rfl, rfl⟩

/-- Witness of C9: the sample run with a capability mask that lacks the copy
bit. -/
theorem C9_copy_unsupported_releases_all_witness :
    (stress_userfaultfd_oomable sample_harness { sample_env with ioctls := 0x14 } 0 0).rc
        = some EXIT_FAILURE ∧
      (stress_userfaultfd_oomable sample_harness { sample_env with ioctls := 0x14 } 0 0).trace =
        [.posix_memalign 4096 4096 true,
          .mmap (region_sz sample_harness { sample_env with ioctls := 0x14 }) true,
          .userfaultfd 0 5,
          .set_nonblock 5 true,
          .ioctl_api 5 UFFD_API 0 true,
          .ioctl_register 5 0x10000 (region_sz sample_harness { sample_env with ioctls := 0x14 })
            UFFDIO_REGISTER_MODE_MISSING true,
          .pr_err .no_copy_support,
          .munmap 0x10000 (region_sz sample_harness { sample_env with ioctls := 0x14 }),
          .free 0x1000] :=
  C9_copy_unsupported_releases_all sample_harness { sample_env with ioctls := 0x14 } 0 0
    0x1000 0x10000 rfl rfl (by decide) (by decide)

/-- C10, as stated, fails: in the sample run without copy support the device
is opened and the region registered, yet the function returns without any
`close` and unmaps the region without an unregistration; the full sample run
returns without a `close` as well. -/
theorem C10_no_close_counterexample :
    .userfaultfd 0 5 ∈ (stress_userfaultfd_oomable sample_harness sample_env_no_copy 0 0).trace ∧
      .ioctl_register 5 0x10000 0x4000 UFFDIO_REGISTER_MODE_MISSING true
        ∈ (stress_userfaultfd_oomable sample_harness sample_env_no_copy 0 0).trace ∧
      (stress_userfaultfd_oomable sample_harness sample_env_no_copy 0 0).rc
        = some EXIT_FAILURE ∧
      (stress_userfaultfd_oomable sample_harness sample_env_no_copy 0 0).trace.any is_close
        = false ∧
      (stress_userfaultfd_oomable sample_harness sample_env_no_copy 0 0).trace.any is_munmap
        = true ∧
      (stress_userfaultfd_oomable sample_harness sample_env_no_copy 0 0).trace.any
        is_unregister = false ∧
      (stress_userfaultfd_oomable sample_harness sample_env 0 0).rc = some EXIT_SUCCESS ∧
      (stress_userfaultfd_oomable sample_harness sample_env 0 0).trace.any is_close
        = false := by
  decide

/-- C10, amended: on every return path of `stress_userfaultfd_oomable` on
which the device was opened, the last two calls are the `munmap` of the region
and the `free` of the zero page. When the setup succeeded, the trace starts
with open, API handshake, registration and clone, in this order, and the only
unregistration attempt, successful or not, comes before the only `munmap`.
When a setup step after the open failed, the region is unmapped without an
unregistration. -/
theorem C10_device_lifecycle (h : Harness) (env : Env) (c mo zp data : Nat)
    (hz : env.posix_memalign = some zp) (hm : env.mmap = some data)
    (hfd : 0 ≤ env.userfaultfd)
    (hret : (stress_userfaultfd_oomable h env c mo).rc.isSome = true) :
    (stress_userfaultfd_oomable h env c mo).trace.reverse.take 2
        = [.free zp, .munmap data (region_sz h env)] ∧
      (registered env = true ∧ capable env = true →
        setup_trace h env data mo <+: (stress_userfaultfd_oomable h env c mo).trace ∧
          (stress_userfaultfd_oomable h env c mo).trace.filter is_unregister_or_munmap
            = [.ioctl_unregister env.userfaultfd data (region_sz h env)
                  env.ioctl_unregister_ok,
                .munmap data (region_sz h env)]) ∧
      (¬ (registered env = true ∧ capable env = true) →
        (stress_userfaultfd_oomable h env c mo).trace.filter is_unregister_or_munmap
          = [.munmap data (region_sz h env)]) := by
  by_cases hok : registered env = true ∧ capable env = true
  · obtain ⟨h1, h2, h3⟩ := oomable_opened_setup_ok h env c mo zp data hz hm hok.1 hok.2 hret
    exact ⟨h1, fun _ => ⟨h2, h3⟩, fun hn => absurd hok hn⟩
  · have herr : registered env = false ∨ capable env = false := by
      by_cases hr : registered env = true
      · right
        have : ¬ capable env = true := fun hc => hok ⟨hr, hc⟩
        simpa using this
      · left
        simpa using hr
    obtain ⟨h1, h2⟩ := oomable_opened_failed_setup h env c mo zp data hz hm hfd herr
    exact ⟨h1, fun hy => absurd hy hok, fun _ => h2⟩

/-- Witness of the amended C10: the sample run, in which the setup succeeds. -/
theorem C10_device_lifecycle_witness :
    (stress_userfaultfd_oomable sample_harness sample_env 0 0).trace.reverse.take 2
        = [.free 0x1000, .munmap 0x10000 (region_sz sample_harness sample_env)] ∧
      setup_trace sample_harness sample_env 0x10000 0
        <+: (stress_userfaultfd_oomable sample_harness sample_env 0 0).trace ∧
      (stress_userfaultfd_oomable sample_harness sample_env 0 0).trace.filter
          is_unregister_or_munmap
        = [.ioctl_unregister sample_env.userfaultfd 0x10000 (region_sz sample_harness sample_env)
              sample_env.ioctl_unregister_ok,
            .munmap 0x10000 (region_sz sample_harness sample_env)] :=
  ⟨(C10_device_lifecycle sample_harness sample_env 0 0 0x1000 0x10000 rfl rfl (by decide)
      (by decide)).1,
    (C10_device_lifecycle sample_harness sample_env 0 0 0x1000 0x10000 rfl rfl (by decide)
      (by decide)).2.1 ⟨by decide, by decide⟩⟩

/-- C11: if the `UFFDIO_UNREGISTER` ioctl fails during teardown,
`stress_userfaultfd_oomable` returns `EXIT_FAILURE`, and the release goes on:
after the failed ioctl and its report the region is unmapped and the zero page
is freed, and these are the last calls before the return. -/
theorem C11_unregister_failure_still_releases (h : Harness) (env : Env) (c mo zp data : Nat)
    (hz : env.posix_memalign = some zp) (hm : env.mmap = some data)
    (hr : registered env = true) (hcap : capable env = true)
    (hfail : env.ioctl_unregister_ok = false)
    (hret : (stress_userfaultfd_oomable h env c mo).rc.isSome = true) :
    (stress_userfaultfd_oomable h env c mo).rc = some EXIT_FAILURE ∧
      (stress_userfaultfd_oomable h env c mo).trace.reverse.take 4
        = [.free zp, .munmap data (region_sz h env), .pr_err .ioctl_unregister_failed,
            .ioctl_unregister env.userfaultfd data (region_sz h env) false] := by
  have hu := unreg_failed env env.userfaultfd data (region_sz h env) zp EXIT_SUCCESS hfail
  rw [oomable_of_setup h env c mo zp data hz hm hr hcap] at hret ⊢
  rw [hu] at hret ⊢
  split_ifs at hret ⊢ with h1 h2
  · refine ⟨rfl, ?_⟩
    rw [reverse_take_append _ _ 4 (by simp)]
    rfl
  · simp at hret
  · refine ⟨rfl, ?_⟩
    rw [reverse_take_append _ _ 4 (by simp)]
    rfl

/-- Witness of C11: the sample run with a failing unregistration. -/
theorem C11_unregister_failure_still_releases_witness :
    (stress_userfaultfd_oomable sample_harness sample_env_unreg_fails 0 0).rc
        = some EXIT_FAILURE ∧
      (stress_userfaultfd_oomable sample_harness sample_env_unreg_fails 0 0).trace.reverse.take 4
        = [.free 0x1000, .munmap 0x10000 (region_sz sample_harness sample_env_unreg_fails),
            .pr_err .ioctl_unregister_failed,
            .ioctl_unregister sample_env_unreg_fails.userfaultfd 0x10000
              (region_sz sample_harness sample_env_unreg_fails) false] :=
  C11_unregister_failure_still_releases sample_harness sample_env_unreg_fails 0 0 0x1000
    0x10000 rfl rfl (by decide) (by decide) rfl (by decide)

/-- C12: for a page size `2 ^ k` and a byte count `b` (both `size_t` values),
the region length `sz = b & ~(page_size - 1)` is `b` rounded down to whole
pages: it is `b - b % page_size`, a multiple of the page size, at most `b`,
less than one page below `b`, and positive whenever `b` is at least one page. -/
theorem C12_region_size_rounds_down (b k : Nat) (hb : b < SIZE_MOD) (hk : k < 64) :
    userfaultfd_sz b (2 ^ k) = b - b % 2 ^ k ∧
      2 ^ k ∣ userfaultfd_sz b (2 ^ k) ∧
      userfaultfd_sz b (2 ^ k) ≤ b ∧
      b - userfaultfd_sz b (2 ^ k) < 2 ^ k ∧
      (2 ^ k ≤ b → 0 < userfaultfd_sz b (2 ^ k)) := by
  have hp : 0 < 2 ^ k := Nat.two_pow_pos k
  have hmod : b % 2 ^ k < 2 ^ k := Nat.mod_lt b hp
  have hle : b % 2 ^ k ≤ b := Nat.mod_le b (2 ^ k)
  rw [userfaultfd_sz_two_pow b k hb hk]
  refine ⟨rfl, Nat.dvd_sub_mod b, Nat.sub_le _ _, by omega, ?_⟩
  intro hge
  have h2 : b - b % 2 ^ k ≠ 0 := by omega
  exact Nat.pos_of_ne_zero h2

/-- Witness of C12: page size 4096 and the byte count of the sample run. -/
theorem C12_region_size_rounds_down_witness :
    userfaultfd_sz 16484 (2 ^ 12) = 16484 - 16484 % 2 ^ 12 ∧
      2 ^ 12 ∣ userfaultfd_sz 16484 (2 ^ 12) ∧
      userfaultfd_sz 16484 (2 ^ 12) ≤ 16484 ∧
      16484 - userfaultfd_sz 16484 (2 ^ 12) < 2 ^ 12 ∧
      (2 ^ 12 ≤ 16484 → 0 < userfaultfd_sz 16484 (2 ^ 12)) :=
  C12_region_size_rounds_down 16484 12 (by decide) (by decide)

/-- C13: on a region whose length is a multiple of the page size (page size
positive), one touch pass of `stress_userfaultfd_child` ends and stores `0xff`
at exactly the `sz / page_size` addresses `data + k * page_size`, for
`k = 0 .. sz / page_size - 1`, in strictly increasing order, each once; and
every cycle of a run does the same: a generator that runs any number of cycles
and then stops returns 0 after that many copies of the advice followed by the
same stores. -/
theorem C13_touch_pass_writes_every_page_once (h : Harness) (c : context_t) (fuel : Nat)
    (hps : 0 < c.page_size) (hdiv : c.page_size ∣ c.sz) (hfuel : c.sz / c.page_size < fuel) :
    touch_pages fuel c.data (c.data + c.sz) c.page_size
        = some ((List.range (c.sz / c.page_size)).map
            (fun k => Action.store (c.data + k * c.page_size) 0xff)) ∧
      ((List.range (c.sz / c.page_size)).map (fun k => c.data + k * c.page_size)).Pairwise
        (fun a b => a < b) ∧
      (∀ (pre : List CycleInput) (last : CycleInput),
        (∀ cy ∈ pre, cy.madvise_ok = true ∧ cycle_continues c cy = true) →
        last.madvise_ok = true → cycle_continues c last = false →
          stress_userfaultfd_child h c ⟨true, pre ++ [last]⟩ fuel
            = some ⟨some 0,
                child_prefix
                  ++ (List.replicate (pre.length + 1) (cycle_trace c)).flatten⟩) := by
  have ht := touch_pages_region c fuel hps hdiv hfuel
  refine ⟨ht, ?_, ?_⟩
  · apply List.Pairwise.map _ _ (List.pairwise_lt_range _)
    intro a b hab
    have : a * c.page_size < b * c.page_size := Nat.mul_lt_mul_of_pos_right hab hps
    omega
  · intro pre last hall hok hstop
    have hrun := child_loop_running c fuel hps hdiv hfuel pre hall
    have happ := child_loop_append c fuel pre [last] _ hrun
    have hstop' :
        (last.run_cond && (c.max_ops == 0 || decide (last.counter < c.max_ops))) = false :=
      hstop
    have hlast : child_loop c fuel [last] = some ⟨some 0, cycle_trace c⟩ := by
      simp [child_loop, hok, ht, hstop', cycle_trace]
    rw [hlast] at happ
    simp only [stress_userfaultfd_child, happ, Option.map_some', Bool.not_true,
      Bool.false_eq_true, if_false, child_prefix]
    rw [List.replicate_succ', List.flatten_append]
    simp

/-- Witness of C13: the four page region of the sample run, two cycles. -/
theorem C13_touch_pass_writes_every_page_once_witness :
    touch_pages 5 sample_context.data (sample_context.data + sample_context.sz)
        sample_context.page_size
        = some ((List.range (sample_context.sz / sample_context.page_size)).map
            (fun k => Action.store (sample_context.data + k * sample_context.page_size) 0xff)) ∧
      stress_userfaultfd_child sample_harness sample_context
          ⟨true, [⟨true, true, 0⟩] ++ [⟨true, false, 4⟩]⟩ 5
        = some ⟨some 0,
            child_prefix
              ++ (List.replicate (([⟨true, true, 0⟩] : List CycleInput).length + 1)
                  (cycle_trace sample_context)).flatten⟩ :=
  ⟨(C13_touch_pass_writes_every_page_once sample_harness sample_context 5 (by decide)
      (by decide) (by decide)).1,
    (C13_touch_pass_writes_every_page_once sample_harness sample_context 5 (by decide)
      (by decide) (by decide)).2.2 [⟨true, true, 0⟩] ⟨true, false, 4⟩ (by decide) rfl rfl⟩

/-- C14: if the `madvise` of a cycle fails, `stress_userfaultfd_child` reports
the failure, sends `SIGALRM` to the parent process id of its context and
returns -1; after the failed `madvise` there is no store and no further cycle
(the rest of the script is not consumed). -/
theorem C14_madvise_failure_ends_generator (h : Harness) (c : context_t) (fuel : Nat)
    (pre rest : List CycleInput) (cy : CycleInput) (t : List Action)
    (hpre : child_loop c fuel pre = some ⟨none, t⟩) (hfail : cy.madvise_ok = false) :
    stress_userfaultfd_child h c ⟨true, pre ++ cy :: rest⟩ fuel
      = some ⟨some (-1),
          child_prefix ++ t
            ++ [.madvise c.data c.sz MADV_DONTNEED false, .pr_fail_err .madvise_failed,
                .kill (c.parent : Nat) SIGALRM]⟩ := by
  have happ := child_loop_append c fuel pre (cy :: rest) t hpre
  have hcy : child_loop c fuel (cy :: rest)
      = some ⟨some (-1),
          [.madvise c.data c.sz MADV_DONTNEED false, .pr_fail_err .madvise_failed,
            .kill (c.parent : Nat) SIGALRM]⟩ := by
    simp [child_loop, hfail]
  rw [hcy] at happ
  simp [stress_userfaultfd_child, happ, child_prefix]

/-- Witness of C14: the sample region, one full cycle and then a failing
`madvise`. -/
theorem C14_madvise_failure_ends_generator_witness :
    stress_userfaultfd_child sample_harness sample_context
        ⟨true, [⟨true, true, 0⟩] ++ ⟨false, true, 4⟩ :: [⟨true, true, 8⟩]⟩ 5
      = some ⟨some (-1),
          child_prefix ++ cycle_trace sample_context
            ++ [.madvise sample_context.data sample_context.sz MADV_DONTNEED false,
                .pr_fail_err .madvise_failed,
                .kill (sample_context.parent : Nat) SIGALRM]⟩ :=
  C14_madvise_failure_ends_generator sample_harness sample_context 5 [⟨true, true, 0⟩]
    [⟨true, true, 8⟩] ⟨false, true, 4⟩ (cycle_trace sample_context) (by decide) rfl

/-- C15: for an address inside `[data_start, data_end)`, `handle_page_fault`
returns 0 exactly when its resolution ioctl succeeds, and then it has issued
exactly one ioctl: `UFFDIO_COPY` with destination `addr`, source `zero_page`,
length `page_size` and mode 0, or `UFFDIO_ZEROPAGE` with start `addr`, length
`page_size` and mode 0. -/
theorem C15_successful_resolution (fd : Int)
    (addr zero_page data_start data_end page_size rnd : Nat) (ioctl_ok : Bool)
    (hin : data_start ≤ addr ∧ addr < data_end) :
    ((handle_page_fault fd addr zero_page data_start data_end page_size rnd ioctl_ok).1 = 0
        ↔ ioctl_ok = true) ∧
      (ioctl_ok = true →
        handle_page_fault fd addr zero_page data_start data_end page_size rnd ioctl_ok
          = (0, [if rnd &&& 1 ≠ 0 then .ioctl_copy fd addr zero_page page_size 0 true
                 else .ioctl_zeropage fd addr page_size 0 true])) := by
  have hr : ¬ (addr < data_start ∨ addr ≥ data_end) := by omega
  unfold handle_page_fault
  cases ioctl_ok <;> simp only [hr, if_false] <;> split_ifs <;> simp_all

/-- Witness of C15: the first two faults of the sample run, one resolved by
copy and one by zeropage. -/
theorem C15_successful_resolution_witness :
    handle_page_fault 5 0x10000 0x1000 0x10000 0x14000 4096 1 true
        = (0, [if 1 &&& 1 ≠ 0 then .ioctl_copy 5 0x10000 0x1000 4096 0 true
               else .ioctl_zeropage 5 0x10000 4096 0 true]) ∧
      handle_page_fault 5 0x11000 0x1000 0x10000 0x14000 4096 2 true
        = (0, [if 2 &&& 1 ≠ 0 then .ioctl_copy 5 0x11000 0x1000 4096 0 true
               else .ioctl_zeropage 5 0x11000 4096 0 true]) :=
  ⟨(C15_successful_resolution 5 0x10000 0x1000 0x10000 0x14000 4096 1 true
      (by decide)).2 rfl,
    (C15_successful_resolution 5 0x11000 0x1000 0x10000 0x14000 4096 2 true
      (by decide)).2 rfl⟩

/-- C16: on every run of `stress_userfaultfd_oomable` in which the generator
was spawned, once the servicer loop is left the function returns, and what
follows the calls of the loop is the teardown: `SIGKILL` to the generator,
`waitpid` on it, `UFFDIO_UNREGISTER` of the region, `munmap` of the region and
`free` of the zero page, in this order, each once; while the servicer loop is
still running the function has not returned and none of them has been made. -/
theorem C16_teardown_order (h : Harness) (env : Env) (c mo zp data : Nat)
    (hz : env.posix_memalign = some zp) (hm : env.mmap = some data)
    (hr : registered env = true) (hcap : capable env = true) (hclone : 0 ≤ env.clone) :
    ((servicer_loop (servicer_of h env zp data mo) env.script c).exited = true →
        (stress_userfaultfd_oomable h env c mo).rc.isSome = true ∧
          (stress_userfaultfd_oomable h env c mo).trace
            = setup_trace h env data mo
              ++ (servicer_loop (servicer_of h env zp data mo) env.script c).trace
              ++ kill_and_wait env
              ++ (unreg env env.userfaultfd data (region_sz h env) zp EXIT_SUCCESS).2 ∧
          (stress_userfaultfd_oomable h env c mo).trace.filter is_teardown =
            [.kill env.clone SIGKILL, .waitpid env.clone env.waitpid_ok,
              .ioctl_unregister env.userfaultfd data (region_sz h env)
                env.ioctl_unregister_ok,
              .munmap data (region_sz h env), .free zp]) ∧
      ((servicer_loop (servicer_of h env zp data mo) env.script c).exited = false →
        (stress_userfaultfd_oomable h env c mo).rc = none ∧
          (stress_userfaultfd_oomable h env c mo).trace.filter is_teardown = []) := by
  have h1 := setup_trace_no_teardown h env data mo
  have h2 := servicer_loop_no_teardown (servicer_of h env zp data mo) env.script c
  have h3 := kill_and_wait_teardown env
  have h4 := unreg_teardown env env.userfaultfd data (region_sz h env) zp EXIT_SUCCESS
  rw [oomable_of_setup h env c mo zp data hz hm hr hcap]
  simp only [not_lt.mpr hclone, if_false]
  constructor
  · intro hex
    simp [hex, List.filter_append, h1, h2, h3, h4]
  · intro hex
    simp [hex, List.filter_append, h1, h2]

/-- Witness of C16: the sample run, whose loop is left on the third
notification. -/
theorem C16_teardown_order_witness :
    (stress_userfaultfd_oomable sample_harness sample_env 0 0).rc.isSome = true ∧
      (stress_userfaultfd_oomable sample_harness sample_env 0 0).trace
        = setup_trace sample_harness sample_env 0x10000 0
          ++ (servicer_loop (servicer_of sample_harness sample_env 0x1000 0x10000 0)
              sample_env.script 0).trace
          ++ kill_and_wait sample_env
          ++ (unreg sample_env sample_env.userfaultfd 0x10000
              (region_sz sample_harness sample_env) 0x1000 EXIT_SUCCESS).2 ∧
      (stress_userfaultfd_oomable sample_harness sample_env 0 0).trace.filter is_teardown =
        [.kill sample_env.clone SIGKILL, .waitpid sample_env.clone sample_env.waitpid_ok,
          .ioctl_unregister sample_env.userfaultfd 0x10000
            (region_sz sample_harness sample_env) sample_env.ioctl_unregister_ok,
          .munmap 0x10000 (region_sz sample_harness sample_env), .free 0x1000] :=
  (C16_teardown_order sample_harness sample_env 0 0 0x1000 0x10000 rfl rfl (by decide)
    (by decide) (by decide)).1 (by decide)

/-- C17: when the notification read is not a page fault event, or is a page
fault without the write flag, the servicer reports a failure, issues no
resolution ioctl, leaves the counter unchanged and does not leave the loop:
the iteration ends at the loop condition, which alone decides whether the loop
goes on with the rest of the script. -/
theorem C17_unexpected_notification_is_skipped (s : Servicer) (ev : IterInput)
    (rest : List IterInput) (c : Nat) (m : uffd_msg)
    (hreach : reaches_read s ev = true) (hread : ev.read = .msg m)
    (hbad : m.event ≠ UFFD_EVENT_PAGEFAULT ∨ m.flags &&& UFFD_PAGEFAULT_FLAG_WRITE = 0) :
    do_read s ev c =
        ⟨.next, c,
          [.read s.fd,
            .pr_fail_err (if m.event ≠ UFFD_EVENT_PAGEFAULT then .msg_not_pagefault
              else .msg_not_write_fault)]⟩ ∧
      (servicer_body s ev c).flow = .next ∧
      (servicer_body s ev c).counter = c ∧
      (servicer_body s ev c).trace.countP is_resolution_ioctl = 0 ∧
      (servicer_body s ev c).trace.getLast?
        = some (.pr_fail_err (if m.event ≠ UFFD_EVENT_PAGEFAULT then .msg_not_pagefault
            else .msg_not_write_fault)) ∧
      servicer_loop s (ev :: rest) c =
        if ev.run_cond && (s.max_ops == 0 || decide (c < s.max_ops)) then
          ⟨(servicer_loop s rest c).counter,
            (servicer_body s ev c).trace ++ (servicer_loop s rest c).trace,
            (servicer_loop s rest c).exited⟩
        else
          ⟨c, (servicer_body s ev c).trace, true⟩ := by
  have hdr := do_read_bad_message s ev c m hread hbad
  obtain ⟨h1, h2, h3, h4⟩ := servicer_body_of_do_read s ev c _ _ _ hreach hdr rfl
    (by simp [is_resolution_ioctl])
  exact ⟨hdr, h1, h2, h3, h4, servicer_loop_cons_same s ev rest c h1 h2⟩

/-- Witness of C17: a notification of another event kind, followed by a
fault. -/
theorem C17_unexpected_notification_is_skipped_witness :
    (servicer_body sample_servicer sample_other_event 0).flow = .next ∧
      (servicer_body sample_servicer sample_other_event 0).counter = 0 ∧
      (servicer_body sample_servicer sample_other_event 0).trace.countP is_resolution_ioctl
        = 0 ∧
      servicer_loop sample_servicer (sample_other_event :: [sample_fault 0x10000 1]) 0 =
        if sample_other_event.run_cond
            && (sample_servicer.max_ops == 0 || decide (0 < sample_servicer.max_ops)) then
          ⟨(servicer_loop sample_servicer [sample_fault 0x10000 1] 0).counter,
            (servicer_body sample_servicer sample_other_event 0).trace
              ++ (servicer_loop sample_servicer [sample_fault 0x10000 1] 0).trace,
            (servicer_loop sample_servicer [sample_fault 0x10000 1] 0).exited⟩
        else
          ⟨0, (servicer_body sample_servicer sample_other_event 0).trace, true⟩ :=
  have w := C17_unexpected_notification_is_skipped sample_servicer sample_other_event
    [sample_fault 0x10000 1] 0 ⟨0x13, 1, 0x10000⟩ (by decide) rfl (Or.inl (by decide))
  ⟨w.2.1, w.2.2.1, w.2.2.2.1, w.2.2.2.2.2⟩

/-- C18, as stated, fails: in this run the read fails with `EIO` while the
stop flag stays set; the failure is reported and the loop goes on with a
further poll and read, resolves the next fault and is still running at the end
of the script. -/
theorem C18_read_failure_not_fatal_counterexample :
    servicer_loop sample_servicer [sample_read_failure, sample_fault 0x10000 1] 0 =
      ⟨1,
        [.poll 5 1000, .read 5, .pr_fail_err .read_userfaultfd,
          .poll 5 1000, .read 5, .ioctl_copy 5 0x10000 0x1000 4096 0 true],
        false⟩ := by
  decide

/-- C18, amended: a read that fails with an errno other than `EINTR` is
reported, and the loop is left at that event exactly when the stop flag is
found cleared right after the report; with the flag still set the iteration
ends at the loop condition, like the iteration of a read that fails with
`EINTR`, which is not reported. In each case the counter is unchanged and no
resolution ioctl is issued. -/
theorem C18_read_failure (s : Servicer) (ev : IterInput) (rest : List IterInput)
    (c errno : Nat) (hreach : reaches_read s ev = true) (hread : ev.read = .error errno) :
    do_read s ev c =
        (if errno = EINTR then ⟨.next, c, [.read s.fd]⟩
         else ⟨if ev.run_read then .next else .brk, c,
           [.read s.fd, .pr_fail_err .read_userfaultfd]⟩) ∧
      (servicer_body s ev c).counter = c ∧
      (servicer_body s ev c).trace.countP is_resolution_ioctl = 0 ∧
      (servicer_body s ev c).trace.getLast?
        = some (if errno = EINTR then .read s.fd else .pr_fail_err .read_userfaultfd) ∧
      (errno ≠ EINTR → ev.run_read = false →
        servicer_loop s (ev :: rest) c = ⟨c, (servicer_body s ev c).trace, true⟩) ∧
      (errno = EINTR ∨ ev.run_read = true →
        servicer_loop s (ev :: rest) c =
          if ev.run_cond && (s.max_ops == 0 || decide (c < s.max_ops)) then
            ⟨(servicer_loop s rest c).counter,
              (servicer_body s ev c).trace ++ (servicer_loop s rest c).trace,
              (servicer_loop s rest c).exited⟩
          else
            ⟨c, (servicer_body s ev c).trace, true⟩) := by
  have hdr := do_read_error s ev c errno hread
  by_cases he : errno = EINTR
  · simp only [he, if_true] at hdr ⊢
    obtain ⟨h1, h2, h3, h4⟩ := servicer_body_of_do_read s ev c _ _ _ hreach hdr rfl
      (by simp [is_resolution_ioctl])
    refine ⟨hdr, h2, h3, h4, fun hn => absurd rfl hn, fun _ => ?_⟩
    exact servicer_loop_cons_same s ev rest c h1 h2
  · simp only [he, if_false] at hdr ⊢
    obtain ⟨h1, h2, h3, h4⟩ := servicer_body_of_do_read s ev c _ _ _ hreach hdr rfl
      (by simp [is_resolution_ioctl])
    refine ⟨hdr, h2, h3, h4, fun _ hrr => ?_, fun hor => ?_⟩
    · rw [hrr] at h1
      have hb := servicer_loop_cons_brk s ev rest c h1
      rw [h2] at hb
      exact hb
    · have hrr : ev.run_read = true := by
        rcases hor with h | h
        · exact h.elim
        · exact h
      rw [hrr] at h1
      exact servicer_loop_cons_same s ev rest c h1 h2

/-- Witness of the amended C18: the failed read of the counterexample run. -/
theorem C18_read_failure_witness :
    do_read sample_servicer sample_read_failure 0 =
        (if 5 = EINTR then ⟨.next, 0, [.read sample_servicer.fd]⟩
         else ⟨if sample_read_failure.run_read then .next else .brk, 0,
           [.read sample_servicer.fd, .pr_fail_err .read_userfaultfd]⟩) ∧
      (servicer_body sample_servicer sample_read_failure 0).counter = 0 ∧
      servicer_loop sample_servicer (sample_read_failure :: [sample_fault 0x10000 1]) 0 =
        if sample_read_failure.run_cond
            && (sample_servicer.max_ops == 0 || decide (0 < sample_servicer.max_ops)) then
          ⟨(servicer_loop sample_servicer [sample_fault 0x10000 1] 0).counter,
            (servicer_body sample_servicer sample_read_failure 0).trace
              ++ (servicer_loop sample_servicer [sample_fault 0x10000 1] 0).trace,
            (servicer_loop sample_servicer [sample_fault 0x10000 1] 0).exited⟩
        else
          ⟨0, (servicer_body sample_servicer sample_read_failure 0).trace, true⟩ :=
  have w := C18_read_failure sample_servicer sample_read_failure [sample_fault 0x10000 1] 0 5
    (by decide) rfl
  ⟨w.1, w.2.1, w.2.2.2.2.2 (Or.inr rfl)⟩

/-- C19, as stated, fails: in this iteration poll fails with `EINTR` while a
notification waits; the iteration ends after the poll, without any read. -/
theorem C19_poll_eintr_skips_read_counterexample :
    sample_servicer.do_poll = true ∧
      sample_poll_eintr.poll = .error EINTR ∧
      servicer_body sample_servicer sample_poll_eintr 0 = ⟨.next, 0, [.poll 5 1000]⟩ ∧
      (servicer_body sample_servicer sample_poll_eintr 0).trace.any is_read = false := by
  decide

/-- C19, amended: when poll fails with `ENOMEM`, the servicer falls through,
without a report, to a read of the fault device in the same iteration; when
poll fails with `EINTR`, the iteration ends after the poll, without a read and
without a report, at the loop condition, so that the next iteration polls
again. -/
theorem C19_poll_failure (s : Servicer) (ev : IterInput) (rest : List IterInput) (c : Nat)
    (hpoll : s.do_poll = true) (htop : ev.run_top = true) :
    (ev.poll = .error ENOMEM →
        servicer_body s ev c =
            ⟨(do_read s ev c).flow, (do_read s ev c).counter,
              .poll s.fd 1000 :: (do_read s ev c).trace⟩ ∧
          (do_read s ev c).trace.head? = some (.read s.fd)) ∧
      (ev.poll = .error EINTR →
        servicer_body s ev c = ⟨.next, c, [.poll s.fd 1000]⟩ ∧
          servicer_loop s (ev :: rest) c =
            if ev.run_cond && (s.max_ops == 0 || decide (c < s.max_ops)) then
              ⟨(servicer_loop s rest c).counter,
                .poll s.fd 1000 :: (servicer_loop s rest c).trace,
                (servicer_loop s rest c).exited⟩
            else
              ⟨c, [.poll s.fd 1000], true⟩) := by
  constructor
  · intro hp
    refine ⟨?_, do_read_trace_head s ev c⟩
    simp [servicer_body, hpoll, htop, hp, show ENOMEM ≠ EINTR by decide]
  · intro hp
    have hb : servicer_body s ev c = ⟨.next, c, [.poll s.fd 1000]⟩ := by
      simp [servicer_body, hpoll, htop, hp]
    refine ⟨hb, ?_⟩
    have hl := servicer_loop_cons_same s ev rest c (by rw [hb]) (by rw [hb])
    rw [hb] at hl
    simpa using hl

/-- Witness of the amended C19: the interrupted poll of the counterexample. -/
theorem C19_poll_failure_witness :
    servicer_body sample_servicer sample_poll_eintr 0
        = ⟨.next, 0, [.poll sample_servicer.fd 1000]⟩ ∧
      servicer_loop sample_servicer (sample_poll_eintr :: [sample_fault 0x10000 1]) 0 =
        if sample_poll_eintr.run_cond
            && (sample_servicer.max_ops == 0 || decide (0 < sample_servicer.max_ops)) then
          ⟨(servicer_loop sample_servicer [sample_fault 0x10000 1] 0).counter,
            .poll sample_servicer.fd 1000
              :: (servicer_loop sample_servicer [sample_fault 0x10000 1] 0).trace,
            (servicer_loop sample_servicer [sample_fault 0x10000 1] 0).exited⟩
        else
          ⟨0, [.poll sample_servicer.fd 1000], true⟩ :=
  (C19_poll_failure sample_servicer sample_poll_eintr [sample_fault 0x10000 1] 0 rfl rfl).2 rfl

/-- C20: the transient conditions of the servicer loop are silent and retried.
A poll timeout and a poll result without `POLLIN` end the iteration after the
poll alone: no report, no read, no resolution ioctl, same counter. A read
interrupted with `EINTR` ends it after the read alone: no report follows, no
notification is handled, no resolution ioctl, same counter. None of them
leaves the loop: each iteration ends at the loop condition. -/
theorem C20_transient_conditions_are_retried (s : Servicer) (ev : IterInput)
    (rest : List IterInput) (c : Nat) :
    (s.do_poll = true → ev.run_top = true →
        (ev.poll = .timeout ∨ ∃ revents, ev.poll = .ready revents ∧ revents &&& POLLIN = 0) →
        servicer_body s ev c = ⟨.next, c, [.poll s.fd 1000]⟩) ∧
      (reaches_read s ev = true → ev.read = .error EINTR →
        do_read s ev c = ⟨.next, c, [.read s.fd]⟩ ∧
          (servicer_body s ev c).flow = .next ∧
          (servicer_body s ev c).counter = c ∧
          (servicer_body s ev c).trace.countP is_resolution_ioctl = 0 ∧
          (servicer_body s ev c).trace.getLast? = some (.read s.fd)) ∧
      ((s.do_poll = true ∧ ev.run_top = true ∧
            (ev.poll = .timeout ∨
              ∃ revents, ev.poll = .ready revents ∧ revents &&& POLLIN = 0)) ∨
          (reaches_read s ev = true ∧ ev.read = .error EINTR) →
        servicer_loop s (ev :: rest) c =
          if ev.run_cond && (s.max_ops == 0 || decide (c < s.max_ops)) then
            ⟨(servicer_loop s rest c).counter,
              (servicer_body s ev c).trace ++ (servicer_loop s rest c).trace,
              (servicer_loop s rest c).exited⟩
          else
            ⟨c, (servicer_body s ev c).trace, true⟩) := by
  have hpollcase : s.do_poll = true → ev.run_top = true →
      (ev.poll = .timeout ∨ ∃ revents, ev.poll = .ready revents ∧ revents &&& POLLIN = 0) →
      servicer_body s ev c = ⟨.next, c, [.poll s.fd 1000]⟩ := by
    intro hpoll htop hp
    rcases hp with hp | ⟨revents, hp, hin⟩
    · simp [servicer_body, hpoll, htop, hp]
    · simp [servicer_body, hpoll, htop, hp, hin]
  have hreadcase : reaches_read s ev = true → ev.read = .error EINTR →
      do_read s ev c = ⟨.next, c, [.read s.fd]⟩ ∧
        (servicer_body s ev c).flow = .next ∧
        (servicer_body s ev c).counter = c ∧
        (servicer_body s ev c).trace.countP is_resolution_ioctl = 0 ∧
        (servicer_body s ev c).trace.getLast? = some (.read s.fd) := by
    intro hreach hread
    have hdr := do_read_error s ev c EINTR hread
    simp only [if_true] at hdr
    exact ⟨hdr, servicer_body_of_do_read s ev c _ _ _ hreach hdr rfl
      (by simp [is_resolution_ioctl])⟩
  refine ⟨hpollcase, hreadcase, ?_⟩
  intro hor
  rcases hor with ⟨hpoll, htop, hp⟩ | ⟨hreach, hread⟩
  · have hb := hpollcase hpoll htop hp
    exact servicer_loop_cons_same s ev rest c (by rw [hb]) (by rw [hb])
  · obtain ⟨-, h1, h2, -⟩ := hreadcase hreach hread
    exact servicer_loop_cons_same s ev rest c h1 h2

/-- Witness of C20: a poll timeout and an interrupted read. -/
theorem C20_transient_conditions_are_retried_witness :
    servicer_body sample_servicer sample_poll_timeout 3
        = ⟨.next, 3, [.poll sample_servicer.fd 1000]⟩ ∧
      (do_read sample_servicer sample_read_eintr 3 = ⟨.next, 3, [.read sample_servicer.fd]⟩ ∧
        (servicer_body sample_servicer sample_read_eintr 3).flow = .next ∧
        (servicer_body sample_servicer sample_read_eintr 3).counter = 3 ∧
        (servicer_body sample_servicer sample_read_eintr 3).trace.countP is_resolution_ioctl
          = 0 ∧
        (servicer_body sample_servicer sample_read_eintr 3).trace.getLast?
          = some (.read sample_servicer.fd)) :=
  ⟨(C20_transient_conditions_are_retried sample_servicer sample_poll_timeout [] 3).1 rfl rfl
      (Or.inl rfl),
    (C20_transient_conditions_are_retried sample_servicer sample_read_eintr [] 3).2.1
      (by decide) rfl⟩

/-- C21: if the resolution ioctl chosen by `handle_page_fault` fails, the
function reports the failure and returns -1; the servicer loop is left at that
fault (the report is the last call of the loop and the rest of the script is
not consumed) with the counter as it was before the fault, and the whole
teardown follows: kill and wait for the generator, unregistration, munmap,
free. -/
theorem C21_failed_resolution_tears_down (h : Harness) (env : Env) (c mo zp data addr : Nat)
    (pre rest : List IterInput) (ev : IterInput)
    (hz : env.posix_memalign = some zp) (hm : env.mmap = some data)
    (hr : registered env = true) (hcap : capable env = true) (hclone : 0 ≤ env.clone)
    (hscript : env.script = pre ++ ev :: rest)
    (hpre : (servicer_loop (servicer_of h env zp data mo) pre c).exited = false)
    (hread : reaches_read (servicer_of h env zp data mo) ev = true)
    (hd : delivers_fault ev addr = true)
    (hin : data ≤ addr ∧ addr < data + region_sz h env)
    (hfail : ev.ioctl_ok = false) :
    handle_page_fault env.userfaultfd addr zp data (data + region_sz h env) env.page_size
        ev.rnd ev.ioctl_ok
        = (-1,
            [if ev.rnd &&& 1 ≠ 0 then
                .ioctl_copy env.userfaultfd addr zp env.page_size 0 false
              else .ioctl_zeropage env.userfaultfd addr env.page_size 0 false,
              .pr_fail_err (if ev.rnd &&& 1 ≠ 0 then .copy_ioctl_failed
                else .zeropage_ioctl_failed)]) ∧
      servicer_loop (servicer_of h env zp data mo) env.script c
        = ⟨(servicer_loop (servicer_of h env zp data mo) pre c).counter,
            (servicer_loop (servicer_of h env zp data mo) pre c).trace
              ++ (servicer_body (servicer_of h env zp data mo) ev
                  (servicer_loop (servicer_of h env zp data mo) pre c).counter).trace,
            true⟩ ∧
      (servicer_body (servicer_of h env zp data mo) ev
          (servicer_loop (servicer_of h env zp data mo) pre c).counter).trace.getLast?
        = some (.pr_fail_err (if ev.rnd &&& 1 ≠ 0 then .copy_ioctl_failed
            else .zeropage_ioctl_failed)) ∧
      (stress_userfaultfd_oomable h env c mo).rc.isSome = true ∧
      (stress_userfaultfd_oomable h env c mo).counter
        = (servicer_loop (servicer_of h env zp data mo) pre c).counter ∧
      (stress_userfaultfd_oomable h env c mo).trace.filter is_teardown =
        [.kill env.clone SIGKILL, .waitpid env.clone env.waitpid_ok,
          .ioctl_unregister env.userfaultfd data (region_sz h env) env.ioctl_unregister_ok,
          .munmap data (region_sz h env), .free zp] := by
  have hdr := do_read_ioctl_failed (servicer_of h env zp data mo) ev
    (servicer_loop (servicer_of h env zp data mo) pre c).counter addr hd hin hfail
  obtain ⟨hflow, hcnt, hlast⟩ := servicer_body_of_do_read_last
    (servicer_of h env zp data mo) ev
    (servicer_loop (servicer_of h env zp data mo) pre c).counter _ _ _ hread hdr rfl
  have hbrk := servicer_loop_cons_brk (servicer_of h env zp data mo) ev rest
    (servicer_loop (servicer_of h env zp data mo) pre c).counter hflow
  rw [hcnt] at hbrk
  have hloop := servicer_loop_append (servicer_of h env zp data mo) pre (ev :: rest) c hpre
  rw [hbrk, ← hscript] at hloop
  have hex : (servicer_loop (servicer_of h env zp data mo) env.script c).exited = true := by
    rw [hloop]
  obtain ⟨t1, t2, t3⟩ := oomable_teardown h env c mo zp data hz hm hr hcap hclone hex
  refine ⟨?_, hloop, hlast, ?_, ?_, t3⟩
  · rw [hfail]
    exact handle_page_fault_ioctl_failed env.userfaultfd addr zp data
      (data + region_sz h env) env.page_size ev.rnd hin
  · rw [t1]
    rfl
  · rw [t2, hloop]


/-- Witness of C21: the sample run with a failing zeropage ioctl on the second
fault. -/
theorem C21_failed_resolution_tears_down_witness :
    (stress_userfaultfd_oomable sample_harness sample_env_ioctl_fails 0 0).rc.isSome = true ∧
      (stress_userfaultfd_oomable sample_harness sample_env_ioctl_fails 0 0).counter
        = (servicer_loop (servicer_of sample_harness sample_env_ioctl_fails 0x1000 0x10000 0)
            [sample_fault 0x10000 1] 0).counter ∧
      (stress_userfaultfd_oomable sample_harness sample_env_ioctl_fails 0 0).trace.filter
          is_teardown =
        [.kill sample_env_ioctl_fails.clone SIGKILL,
          .waitpid sample_env_ioctl_fails.clone sample_env_ioctl_fails.waitpid_ok,
          .ioctl_unregister sample_env_ioctl_fails.userfaultfd 0x10000
            (region_sz sample_harness sample_env_ioctl_fails)
            sample_env_ioctl_fails.ioctl_unregister_ok,
          .munmap 0x10000 (region_sz sample_harness sample_env_ioctl_fails), .free 0x1000] :=
  (C21_failed_resolution_tears_down sample_harness sample_env_ioctl_fails 0 0 0x1000 0x10000
    0x11000 [sample_fault 0x10000 1] [sample_fault 0x12000 3]
    ⟨true, .ready 1, true, .msg ⟨0x12, 1, 0x11000⟩, true, 2, false, true⟩
    rfl rfl (by decide) (by decide) (by decide) rfl (by decide) (by decide) (by decide)
    (by decide) rfl).2.2.2

/-- C22: for a fault inside the region, the resolution strategy of
`handle_page_fault` is decided by the low bit of the random value alone: an
odd value gives the copy ioctl and an even value the zeropage ioctl, as the
first call made. Both strategies are reachable (values 1 and 0), and for a
fixed random value the choice is the same at every address of the region. -/
theorem C22_strategy_by_low_bit (fd : Int) (addr zp ds de ps rnd : Nat) (ok : Bool)
    (hin : ds ≤ addr ∧ addr < de) :
    (handle_page_fault fd addr zp ds de ps rnd ok).2.head?
        = some (if rnd % 2 = 1 then .ioctl_copy fd addr zp ps 0 ok
            else .ioctl_zeropage fd addr ps 0 ok) ∧
      (handle_page_fault fd addr zp ds de ps rnd ok).2.any is_copy = decide (rnd % 2 = 1) ∧
      (handle_page_fault fd addr zp ds de ps rnd ok).2.any is_zeropage
        = decide (rnd % 2 = 0) ∧
      (handle_page_fault fd addr zp ds de ps 1 ok).2.any is_copy = true ∧
      (handle_page_fault fd addr zp ds de ps 0 ok).2.any is_zeropage = true ∧
      (∀ addr2 : Nat, ds ≤ addr2 ∧ addr2 < de →
        (handle_page_fault fd addr2 zp ds de ps rnd ok).2.any is_copy
          = (handle_page_fault fd addr zp ds de ps rnd ok).2.any is_copy) := by
  have hmod : rnd % 2 = 0 ∨ rnd % 2 = 1 := Nat.mod_two_eq_zero_or_one rnd
  have hcopy : ∀ a r : Nat, ds ≤ a ∧ a < de →
      (handle_page_fault fd a zp ds de ps r ok).2.any is_copy = decide (r % 2 = 1) := by
    intro a r ha
    rw [handle_page_fault_head fd a zp ds de ps r ok ha]
    rcases Nat.mod_two_eq_zero_or_one r with h0 | h1
    · cases ok <;> simp [h0, is_copy]
    · cases ok <;> simp [h1, is_copy]
  have hzero : ∀ a r : Nat, ds ≤ a ∧ a < de →
      (handle_page_fault fd a zp ds de ps r ok).2.any is_zeropage = decide (r % 2 = 0) := by
    intro a r ha
    rw [handle_page_fault_head fd a zp ds de ps r ok ha]
    rcases Nat.mod_two_eq_zero_or_one r with h0 | h1
    · cases ok <;> simp [h0, is_zeropage]
    · cases ok <;> simp [h1, is_zeropage]
  refine ⟨?_, hcopy addr rnd hin, hzero addr rnd hin, ?_, ?_, ?_⟩
  · rw [handle_page_fault_head fd addr zp ds de ps rnd ok hin]
    rfl
  · rw [hcopy addr 1 hin]
    rfl
  · rw [hzero addr 0 hin]
    rfl
  · intro addr2 h2
    rw [hcopy addr2 rnd h2, hcopy addr rnd hin]

/-- Witness of C22: a fault at the first page of the sample region with the
random value 7. -/
theorem C22_strategy_by_low_bit_witness :
    (handle_page_fault 5 0x10000 0x1000 0x10000 0x14000 4096 7 true).2.head?
        = some (if 7 % 2 = 1 then .ioctl_copy 5 0x10000 0x1000 4096 0 true
            else .ioctl_zeropage 5 0x10000 4096 0 true) ∧
      (handle_page_fault 5 0x10000 0x1000 0x10000 0x14000 4096 7 true).2.any is_copy
        = decide (7 % 2 = 1) ∧
      (handle_page_fault 5 0x10000 0x1000 0x10000 0x14000 4096 7 true).2.any is_zeropage
        = decide (7 % 2 = 0) ∧
      (handle_page_fault 5 0x10000 0x1000 0x10000 0x14000 4096 1 true).2.any is_copy = true ∧
      (handle_page_fault 5 0x10000 0x1000 0x10000 0x14000 4096 0 true).2.any is_zeropage
        = true :=
  have w := C22_strategy_by_low_bit 5 0x10000 0x1000 0x10000 0x14000 4096 7 true (by decide)
  ⟨w.1, w.2.1, w.2.2.1, w.2.2.2.1, w.2.2.2.2.1⟩

/-- C23: the servicer loop honours the operation ceiling. Started below a
ceiling `max_ops > 0`, the counter never exceeds `max_ops`, and once it equals
`max_ops` the loop has been left and consumes nothing more. With
`max_ops = 0` the counter decides nothing: whether the loop is left, and what
it does, is the same for every counter value, and an iteration is followed by
the next one unless it ends in `break` or finds the stop flag cleared in the
loop condition. -/
theorem C23_operation_ceiling (s : Servicer) (script rest : List IterInput) (c : Nat) :
    (c < s.max_ops →
        (servicer_loop s script c).counter ≤ s.max_ops ∧
          ((servicer_loop s script c).counter = s.max_ops →
            (servicer_loop s script c).exited = true ∧
              servicer_loop s (script ++ rest) c = servicer_loop s script c)) ∧
      (s.max_ops = 0 →
        (∀ c2 : Nat,
          (servicer_loop s script c).exited = (servicer_loop s script c2).exited ∧
            (servicer_loop s script c).trace = (servicer_loop s script c2).trace) ∧
          (∀ ev : IterInput,
            servicer_loop s (ev :: rest) c =
              if (servicer_body s ev c).flow = .next ∧ ev.run_cond = true then
                ⟨(servicer_loop s rest (servicer_body s ev c).counter).counter,
                  (servicer_body s ev c).trace
                    ++ (servicer_loop s rest (servicer_body s ev c).counter).trace,
                  (servicer_loop s rest (servicer_body s ev c).counter).exited⟩
              else
                ⟨(servicer_body s ev c).counter, (servicer_body s ev c).trace, true⟩)) := by
  constructor
  · intro hc
    obtain ⟨h1, h2⟩ := servicer_loop_ceiling s script c hc
    exact ⟨h1, fun heq => ⟨h2 heq, servicer_loop_exited_append s script rest c (h2 heq)⟩⟩
  · intro hmo
    refine ⟨fun c2 => servicer_loop_unbounded s hmo script c c2, ?_⟩
    intro ev
    cases hflow : (servicer_body s ev c).flow with
    | brk =>
      rw [servicer_loop_cons_brk s ev rest c hflow]
      simp
    | next =>
      rw [servicer_loop_cons_next s ev rest c hflow]
      simp [hmo]

/-- Witness of C23: the sample run under a ceiling of two operations. -/
theorem C23_operation_ceiling_witness :
    (servicer_loop sample_servicer_ceiling sample_env.script 0).counter
        ≤ sample_servicer_ceiling.max_ops ∧
      (servicer_loop sample_servicer_ceiling sample_env.script 0).exited = true ∧
      servicer_loop sample_servicer_ceiling (sample_env.script ++ [sample_fault 0x13000 1]) 0
        = servicer_loop sample_servicer_ceiling sample_env.script 0 :=
  have w := (C23_operation_ceiling sample_servicer_ceiling sample_env.script
    [sample_fault 0x13000 1] 0).1 (by decide)
  ⟨w.1, (w.2 (by decide)).1, (w.2 (by decide)).2⟩

/-- C24: if the `clone` of the generator fails, `stress_userfaultfd_oomable`
reports it and goes straight to the unregistration: the servicer loop runs no
iteration (no loop call, and the same outcome whatever the script), no `kill`
and no `waitpid` is made, the counter is unchanged, and the return code is
`EXIT_SUCCESS` whenever the unregistration succeeds. -/
theorem C24_clone_failure (h : Harness) (env : Env) (c mo zp data : Nat)
    (hz : env.posix_memalign = some zp) (hm : env.mmap = some data)
    (hr : registered env = true) (hcap : capable env = true) (hclone : env.clone < 0) :
    (stress_userfaultfd_oomable h env c mo).rc
        = some (if env.ioctl_unregister_ok then EXIT_SUCCESS else EXIT_FAILURE) ∧
      (stress_userfaultfd_oomable h env c mo).counter = c ∧
      (stress_userfaultfd_oomable h env c mo).trace
        = setup_trace h env data mo
          ++ [.pr_err .clone_failed,
              .ioctl_unregister env.userfaultfd data (region_sz h env)
                env.ioctl_unregister_ok]
          ++ (if env.ioctl_unregister_ok then [] else [.pr_err .ioctl_unregister_failed])
          ++ [.munmap data (region_sz h env), .free zp] ∧
      (stress_userfaultfd_oomable h env c mo).trace.any is_loop_action = false ∧
      (stress_userfaultfd_oomable h env c mo).trace.any is_kill = false ∧
      (stress_userfaultfd_oomable h env c mo).trace.any is_waitpid = false ∧
      (∀ script : List IterInput,
        stress_userfaultfd_oomable h { env with script := script } c mo
          = stress_userfaultfd_oomable h env c mo) := by
  have hsame : ∀ script : List IterInput,
      stress_userfaultfd_oomable h { env with script := script } c mo
        = stress_userfaultfd_oomable h env c mo := by
    intro script
    rw [oomable_of_setup h { env with script := script } c mo zp data hz hm hr hcap,
      oomable_of_setup h env c mo zp data hz hm hr hcap]
    simp only [hclone, if_true]
    rfl
  rw [oomable_of_setup h env c mo zp data hz hm hr hcap] at hsame ⊢
  simp only [hclone, if_true] at hsame ⊢
  refine ⟨?_, trivial, ?_, ?_, ?_, ?_, hsame⟩
  · rw [unreg_rc]
  · cases hu : env.ioctl_unregister_ok <;>
      simp [unreg, hu, unmap_data, free_zeropage]
  · cases hu : env.ioctl_unregister_ok <;>
      simp [unreg, hu, unmap_data, free_zeropage, setup_trace, is_loop_action]
  · cases hu : env.ioctl_unregister_ok <;>
      simp [unreg, hu, unmap_data, free_zeropage, setup_trace, is_kill]
  · cases hu : env.ioctl_unregister_ok <;>
      simp [unreg, hu, unmap_data, free_zeropage, setup_trace, is_waitpid]

/-- Witness of C24: the sample run with a failing `clone`. -/
theorem C24_clone_failure_witness :
    (stress_userfaultfd_oomable sample_harness sample_env_clone_fails 0 0).rc
        = some (if sample_env_clone_fails.ioctl_unregister_ok then EXIT_SUCCESS
            else EXIT_FAILURE) ∧
      (stress_userfaultfd_oomable sample_harness sample_env_clone_fails 0 0).counter = 0 ∧
      (stress_userfaultfd_oomable sample_harness sample_env_clone_fails 0 0).trace.any
        is_loop_action = false ∧
      (stress_userfaultfd_oomable sample_harness sample_env_clone_fails 0 0).trace.any is_kill
        = false ∧
      (stress_userfaultfd_oomable sample_harness sample_env_clone_fails 0 0).trace.any
        is_waitpid = false :=
  have w := C24_clone_failure sample_harness sample_env_clone_fails 0 0 0x1000 0x10000 rfl rfl
    (by decide) (by decide) (by decide)
  ⟨w.1, w.2.1, w.2.2.2.1, w.2.2.2.2.1, w.2.2.2.2.2.1⟩

/-- C25: if the first `waitpid` of `stress_userfaultfd` fails, the supervisor
sends `SIGTERM` and then `SIGKILL` to the child, waits again and returns
`WEXITSTATUS` of the status it then finds, without the signal classification:
a status without exit code byte, such as the status 9 of a child killed by
`SIGKILL`, gives `EXIT_SUCCESS` and not `EXIT_NO_RESOURCE`. -/
theorem C25_waitpid_failure_skips_classification (h : Harness) (sup : SupEnv) (env : Env)
    (c mo errno : Nat) (hf : 0 < sup.fork) (hw : sup.waitpid = .error errno) :
    (stress_userfaultfd h sup env c mo).1 = .returned (WEXITSTATUS sup.status_again : Nat) ∧
      (stress_userfaultfd h sup env c mo).2
        = [.fork sup.fork, .setpgid sup.fork, .waitpid sup.fork false]
          ++ (if errno ≠ EINTR then [.pr_dbg .waitpid_failed] else [])
          ++ [.kill sup.fork SIGTERM, .kill sup.fork SIGKILL, .waitpid sup.fork true] ∧
      (sup.status_again < 0x100 →
        (stress_userfaultfd h sup env c mo).1 = .returned EXIT_SUCCESS) ∧
      (sup.status_again = 9 →
        WIFSIGNALED sup.status_again = true ∧ WTERMSIG sup.status_again = SIGKILL ∧
          (stress_userfaultfd h sup env c mo).1 = .returned EXIT_SUCCESS ∧
          (h.EXIT_NO_RESOURCE ≠ EXIT_SUCCESS →
            (stress_userfaultfd h sup env c mo).1 ≠ .returned h.EXIT_NO_RESOURCE)) := by
  have hf2 : ¬ sup.fork < 0 := not_lt.mpr (le_of_lt hf)
  have hres : (stress_userfaultfd h sup env c mo).1
      = .returned (WEXITSTATUS sup.status_again : Nat) := by
    simp [stress_userfaultfd, hf, hf2, hw]
  have hsmall : sup.status_again < 0x100 →
      (stress_userfaultfd h sup env c mo).1 = .returned EXIT_SUCCESS := by
    intro hs
    rw [hres, wexitstatus_of_small _ hs]
    rfl
  refine ⟨hres, ?_, hsmall, ?_⟩
  · simp [stress_userfaultfd, hf, hf2, hw]
  · intro h9
    have hs : sup.status_again < 0x100 := by omega
    refine ⟨by rw [h9]; decide, by rw [h9]; decide, hsmall hs, ?_⟩
    intro hne heq
    rw [hsmall hs] at heq
    injection heq with h1
    exact hne h1.symm

/-- Witness of C25: the first `waitpid` fails with `EINTR` and the child is
then found killed by `SIGKILL`. -/
theorem C25_waitpid_failure_skips_classification_witness :
    (stress_userfaultfd sample_harness sample_waitpid_fails sample_env 0 0).1
        = .returned (WEXITSTATUS sample_waitpid_fails.status_again : Nat) ∧
      (WIFSIGNALED sample_waitpid_fails.status_again = true ∧
        WTERMSIG sample_waitpid_fails.status_again = SIGKILL ∧
        (stress_userfaultfd sample_harness sample_waitpid_fails sample_env 0 0).1
          = .returned EXIT_SUCCESS ∧
        (sample_harness.EXIT_NO_RESOURCE ≠ EXIT_SUCCESS →
          (stress_userfaultfd sample_harness sample_waitpid_fails sample_env 0 0).1
            ≠ .returned sample_harness.EXIT_NO_RESOURCE)) :=
  have w := C25_waitpid_failure_skips_classification sample_harness sample_waitpid_fails
    sample_env 0 0 EINTR (by decide) rfl
  ⟨w.1, w.2.2.2 rfl⟩

/-- C26: for a positive page size (in particular every power of two), a
region whose base and length are multiples of the page size, and a
page-aligned address that passes the range check of `handle_page_fault`, the
page handed to the resolution ioctl lies inside the region: it starts at the
address, is one page long, and ends at or before the end of the region. -/
theorem C26_resolved_page_inside_region (fd : Int) (addr zp ds sz ps rnd : Nat) (ok : Bool)
    (hbase : ps ∣ ds) (hlen : ps ∣ sz) (haddr : ps ∣ addr)
    (hin : ds ≤ addr ∧ addr < ds + sz) :
    addr + ps ≤ ds + sz ∧
      (handle_page_fault fd addr zp ds (ds + sz) ps rnd ok).2.head?.bind ioctl_range
        = some (addr, ps) ∧
      (∀ a ∈ (handle_page_fault fd addr zp ds (ds + sz) ps rnd ok).2,
        ∀ st len : Nat, ioctl_range a = some (st, len) → ds ≤ st ∧ st + len ≤ ds + sz) := by
  have hend := page_end_in_region addr ds sz ps hbase hlen haddr hin.2
  have hhead := handle_page_fault_head fd addr zp ds (ds + sz) ps rnd ok hin
  refine ⟨hend, ?_, ?_⟩
  · rw [hhead]
    rcases Nat.mod_two_eq_zero_or_one rnd with h0 | h1
    · simp [h0, ioctl_range]
    · simp [h1, ioctl_range]
  · rw [hhead]
    intro a ha st len hrange
    rcases Nat.mod_two_eq_zero_or_one rnd with h0 | h1
    · cases ok <;> simp [h0] at ha
      · rcases ha with ha | ha <;> subst ha <;> simp [ioctl_range] at hrange
        obtain ⟨rfl, rfl⟩ := hrange
        exact ⟨hin.1, hend⟩
      · subst ha
        simp [ioctl_range] at hrange
        obtain ⟨rfl, rfl⟩ := hrange
        exact ⟨hin.1, hend⟩
    · cases ok <;> simp [h1] at ha
      · rcases ha with ha | ha <;> subst ha <;> simp [ioctl_range] at hrange
        obtain ⟨rfl, rfl⟩ := hrange
        exact ⟨hin.1, hend⟩
      · subst ha
        simp [ioctl_range] at hrange
        obtain ⟨rfl, rfl⟩ := hrange
        exact ⟨hin.1, hend⟩

/-- Witness of C26: the last page of the sample region, page size `2 ^ 12`. -/
theorem C26_resolved_page_inside_region_witness :
    0x13000 + 2 ^ 12 ≤ 0x10000 + 0x4000 ∧
      (handle_page_fault 5 0x13000 0x1000 0x10000 (0x10000 + 0x4000) (2 ^ 12) 1 true).2.head?.bind
          ioctl_range
        = some (0x13000, 2 ^ 12) :=
  have w := C26_resolved_page_inside_region 5 0x13000 0x1000 0x10000 0x4000 (2 ^ 12) 1 true
    (by decide) (by decide) (by decide) (by decide)
  ⟨w.1, w.2.1⟩

/-- C27: `stress_set_dccp_opts` returns 0 and selects the table value exactly
for the strings of the table, "send", "sendmsg" and, where `sendmmsg` is
available, "sendmmsg"; for every other string it returns -1 and leaves the
option selected before unchanged. -/
theorem C27_dccp_opts_lookup (have_sendmmsg : Bool) (prev : Int) (s : String) :
    (dccp_opts have_sendmmsg).map (fun e => e.optname)
        = [ "send", "sendmsg"] ++ (if have_sendmmsg then [ "sendmmsg"] else []) ∧
      (s = "send" → stress_set_dccp_opts have_sendmmsg prev s = (0, DCCP_OPT_SEND)) ∧
      (s = "sendmsg" → stress_set_dccp_opts have_sendmmsg prev s = (0, DCCP_OPT_SENDMSG)) ∧
      (have_sendmmsg = true → s = "sendmmsg" →
        stress_set_dccp_opts have_sendmmsg prev s = (0, DCCP_OPT_SENDMMSG)) ∧
      (s ∉ (dccp_opts have_sendmmsg).map (fun e => e.optname) →
        stress_set_dccp_opts have_sendmmsg prev s = (-1, prev)) ∧
      ((stress_set_dccp_opts have_sendmmsg prev s).1 = 0 ↔
        s ∈ (dccp_opts have_sendmmsg).map (fun e => e.optname)) := by
  refine ⟨?_, ?_, ?_, ?_, ?_, ?_⟩
  · cases have_sendmmsg <;> simp [dccp_opts]
  · intro hs
    subst hs
    cases have_sendmmsg <;> simp [stress_set_dccp_opts, dccp_opts, dccp_opts_find]
  · intro hs
    subst hs
    cases have_sendmmsg <;> simp [stress_set_dccp_opts, dccp_opts, dccp_opts_find]
  · intro hh hs
    subst hs hh
    simp [stress_set_dccp_opts, dccp_opts, dccp_opts_find]
  · intro hn
    have hnone := (dccp_opts_find_eq_none s (dccp_opts have_sendmmsg)).2 hn
    simp [stress_set_dccp_opts, hnone]
  · have hiff := dccp_opts_find_eq_none s (dccp_opts have_sendmmsg)
    unfold stress_set_dccp_opts
    cases hfind : dccp_opts_find s (dccp_opts have_sendmmsg) with
    | none =>
      have hn := hiff.1 hfind
      simp [hn]
    | some o =>
      have hin : s ∈ (dccp_opts have_sendmmsg).map (fun e => e.optname) := by
        by_contra hn
        rw [hiff.2 hn] at hfind
        exact Option.noConfusion hfind
      simp [hin]

/-- Witness of C27: the name "sendmsg" and a string that is not in the table. -/
theorem C27_dccp_opts_lookup_witness :
    stress_set_dccp_opts true DCCP_OPT_SEND "sendmsg" = (0, DCCP_OPT_SENDMSG) ∧
      stress_set_dccp_opts false DCCP_OPT_SENDMSG "sendmmsg" = (-1, DCCP_OPT_SENDMSG) :=
  ⟨(C27_dccp_opts_lookup true DCCP_OPT_SEND "sendmsg").2.2.1 rfl,
    (C27_dccp_opts_lookup false DCCP_OPT_SENDMSG "sendmmsg").2.2.2.2.1 (by decide)⟩

/-- C28: in `stress_madvise`, for a page size `2 ^ k` of at most 4 MB and
`sz = 4 MB & ~(page_size - 1)`, the offset `m = (r % sz) & ~(page_size - 1)`
of the randomly advised page is, for every random value `r`, a multiple of the
page size with `m + page_size <= sz`: the advised page lies inside the mapped
buffer. -/
theorem C28_random_page_inside_buffer (r k : Nat) (hk : k ≤ 22) :
    madvise_sz (2 ^ k) = 4 * MB ∧
      2 ^ k ∣ madvise_offset r (madvise_sz (2 ^ k)) (2 ^ k) ∧
      madvise_offset r (madvise_sz (2 ^ k)) (2 ^ k) + 2 ^ k ≤ madvise_sz (2 ^ k) := by
  have hk64 : k < 64 := by omega
  have hmb : 4 * MB = 2 ^ 22 := by decide
  have hdvd : 2 ^ k ∣ 2 ^ 22 := Nat.pow_dvd_pow 2 hk
  have hsz : madvise_sz (2 ^ k) = 4 * MB := by
    unfold madvise_sz
    rw [page_mask_two_pow k hk64, and_high_mask (4 * MB) k (by rw [hmb]; decide) hk64, hmb,
      Nat.mod_eq_zero_of_dvd hdvd, Nat.sub_zero]
  have hlt : r % (4 * MB) < 4 * MB := Nat.mod_lt r (by rw [hmb]; decide)
  have hoff : madvise_offset r (4 * MB) (2 ^ k) = r % (4 * MB) - r % (4 * MB) % 2 ^ k := by
    unfold madvise_offset
    rw [page_mask_two_pow k hk64]
    exact and_high_mask _ k (by rw [hmb] at hlt ⊢; omega) hk64
  rw [hsz, hoff]
  refine ⟨rfl, Nat.dvd_sub_mod _, ?_⟩
  have hle : r % (4 * MB) - r % (4 * MB) % 2 ^ k ≤ r % (4 * MB) := Nat.sub_le _ _
  have hin : r % (4 * MB) - r % (4 * MB) % 2 ^ k < 0 + 4 * MB := by omega
  have hend := page_end_in_region (r % (4 * MB) - r % (4 * MB) % 2 ^ k) 0 (4 * MB) (2 ^ k)
    (Nat.dvd_zero _) (by rw [hmb]; exact hdvd) (Nat.dvd_sub_mod _) hin
  omega

/-- Witness of C28: page size 4096 and the largest 64 bit random value. -/
theorem C28_random_page_inside_buffer_witness :
    madvise_sz (2 ^ 12) = 4 * MB ∧
      2 ^ 12 ∣ madvise_offset (2 ^ 64 - 1) (madvise_sz (2 ^ 12)) (2 ^ 12) ∧
      madvise_offset (2 ^ 64 - 1) (madvise_sz (2 ^ 12)) (2 ^ 12) + 2 ^ 12
        ≤ madvise_sz (2 ^ 12) :=
  C28_random_page_inside_buffer (2 ^ 64 - 1) 12 (by decide)

/-- C29: in `stress_sync_file` the chunk size `(r & 0x1fc00) + KB` is, for
every random value `r`, a multiple of 1 KB between 1 KB and 128 KB; hence for
every file size `bytes > 0` and every sequence of random values the forward
and the reverse sync loop end, make at most `ceil(bytes / 1 KB)` calls, and
their loop variable `offset` strictly increases from call to call. -/
theorem C29_sync_loops_terminate (rnd : Nat → Nat) (bytes fuel : Nat) ( backward : Bool)
    (hbytes : 0 < bytes) (hfuel : (bytes + 1023) / 1024 < fuel) :
    (∀ r : Nat, KB ∣ sync_chunk r ∧ KB ≤ sync_chunk r ∧ sync_chunk r ≤ 128 * KB) ∧
      (sync_pass rnd bytes backward fuel 0 0).isSome = true ∧
      (∀ calls : List SyncCall, sync_pass rnd bytes backward fuel 0 0 = some calls →
        0 < calls.length ∧
          calls.length ≤ (bytes + 1023) / 1024 ∧
          (calls.map (fun cl => cl.offset)).Pairwise (fun a b => a < b)) := by
  obtain ⟨calls, hc, hlen, hpos, -, hpw⟩ := sync_pass_terminates rnd bytes backward fuel 0 0
    (by simpa using hfuel)
  refine ⟨sync_chunk_bounds, by rw [hc]; rfl, ?_⟩
  intro calls2 hc2
  rw [hc] at hc2
  injection hc2 with hc2
  subst hc2
  exact ⟨hpos hbytes, by simpa using hlen, hpw⟩

/-- Witness of C29: a file of 10000 bytes, forward pass. -/
theorem C29_sync_loops_terminate_witness :
    (sync_pass (fun i => i * 7919) 10000 false 11 0 0).isSome = true ∧
      (0 < ([⟨0, 0, 1024⟩, ⟨1024, 1024, 8192⟩, ⟨9216, 9216, 16384⟩] : List SyncCall).length ∧
        ([⟨0, 0, 1024⟩, ⟨1024, 1024, 8192⟩, ⟨9216, 9216, 16384⟩] : List SyncCall).length
          ≤ (10000 + 1023) / 1024 ∧
        (([⟨0, 0, 1024⟩, ⟨1024, 1024, 8192⟩, ⟨9216, 9216, 16384⟩] : List SyncCall).map
          (fun cl => cl.offset)).Pairwise (fun a b => a < b)) :=
  have w := C29_sync_loops_terminate (fun i => i * 7919) 10000 11 false (by decide) (by decide)
  ⟨w.2.1, w.2.2 [⟨0, 0, 1024⟩, ⟨1024, 1024, 8192⟩, ⟨9216, 9216, 16384⟩] (by decide)⟩

end StressNG
